import Mathlib

/-!
# RabbitMQ stream client (package `stream`): frames and client commands

A shallow embedding of `pkg/stream/client.go`, `pkg/stream/stream_options.go` and
`pkg/stream/constants.go`.

* Go strings are Lean strings; `len` counts their UTF-8 bytes.
* A byte buffer is a list of naturals below 256; `socket.written` records every
  buffer that reached the connection, oldest first.
* Go integers are `Int`; every write to the wire reduces them modulo `256 ^ width`.
* A Go `error` is `Option GoError` (`none` is `nil`).
* What the broker answers is an explicit argument of the command that waits for it.
* The codec, the socket, the coordinator, `handleWrite` and `Consumer.QueryOffset` live
  in files that are not part of the sources at hand; their definitions follow the
  specification and say so.
-/

namespace Stream

/-! ## constants.go -/

def commandDeclarePublisher : Nat := 1
def commandSubscribe : Nat := 7
def commandQueryOffset : Nat := 11
def commandCreateStream : Nat := 13
def commandSaslHandshake : Nat := 18
def commandSaslAuthenticate : Nat := 19
def commandClose : Nat := 22

def version1 : Nat := 1
def unicodeNull : String := "\x00"

def responseCodeOk : Nat := 1
def responseCodeStreamDoesNotExist : Nat := 2
def responseCodeSubscriptionIdDoesNotExist : Nat := 4
def responseCodeStreamAlreadyExists : Nat := 5
def responseCodeAuthenticationFailure : Nat := 8
def responseCodeVirtualHostAccessFailure : Nat := 12
def responseCodeFrameTooLarge : Nat := 14
def responseCodePreconditionFailed : Nat := 17
def responseCodePublisherDoesNotExist : Nat := 18

def closeChannel : Nat := 60

/-- A Go `error` value that is not `nil`, kept as its message. -/
abbrev GoError := String

/-- The function `lookErrorCode` of constants.go. -/
def lookErrorCode (errorCode : Nat) : String :=
  if errorCode = responseCodeOk then "OK"
  else if errorCode = responseCodeAuthenticationFailure then "authentication failure"
  else if errorCode = responseCodeStreamDoesNotExist then "stream does not exist"
  else if errorCode = responseCodeStreamAlreadyExists then "stream already exists"
  else if errorCode = responseCodeVirtualHostAccessFailure then "virtualHost access failure"
  else if errorCode = responseCodeSubscriptionIdDoesNotExist then "subscription id does not exist"
  else if errorCode = responseCodePublisherDoesNotExist then "publisher does not exist"
  else if errorCode = responseCodePreconditionFailed then "precondition failed"
  else if errorCode = responseCodeFrameTooLarge then "frame too large"
  else "Error not handled"

/-! ## Frame codec -/

/-- A byte buffer (`bytes.Buffer`): the bytes written so far, in order. -/
abbrev Buffer := List Nat

/-- Modelled from the spec: numeric encoding is big-endian. `bigEndian w v` is the
`w` bytes of `v` modulo `256 ^ w`, most significant first (two's complement for a
negative `v`). The encoders of the codec are not in the sources. -/
def bigEndian : Nat → Int → Buffer
  | 0, _ => []
  | w + 1, v => bigEndian w (v / 256) ++ [(v % 256).toNat]

/-- The unsigned number a big-endian byte sequence stands for. -/
def readUInt (bs : Buffer) : Nat :=
  bs.foldl (fun acc x => acc * 256 + x) 0

/-- The Go conversion `int16(v)`: the value modulo `2 ^ 16`, read as signed. -/
def int16 (v : Int) : Int :=
  (v + 32768) % 65536 - 32768

/-- The UTF-8 bytes of a string. -/
def strBytes (s : String) : Buffer :=
  s.toUTF8.data.toList.map UInt8.toNat

/-- Go's `len(s)`: the number of bytes of the string. -/
def len (s : String) : Nat :=
  (strBytes s).length

/-- Modelled from the spec: `writeByte` of the absent codec appends one byte. -/
def writeByte (b : Buffer) (v : Int) : Buffer :=
  b ++ bigEndian 1 v

/-- Modelled from the spec: `writeShort` of the absent codec appends an `int16`. -/
def writeShort (b : Buffer) (v : Int) : Buffer :=
  b ++ bigEndian 2 v

/-- Modelled from the spec: `writeUShort` of the absent codec appends a `uint16`. -/
def writeUShort (b : Buffer) (v : Nat) : Buffer :=
  b ++ bigEndian 2 v

/-- Modelled from the spec: `writeInt` of the absent codec appends an `int32`. -/
def writeInt (b : Buffer) (v : Int) : Buffer :=
  b ++ bigEndian 4 v

/-- Modelled from the spec: `writeLong` of the absent codec appends an `int64`. -/
def writeLong (b : Buffer) (v : Int) : Buffer :=
  b ++ bigEndian 8 v

/-- Modelled from the spec: strings are an `int16` length, then the UTF-8 bytes
(`writeString` of the absent codec). -/
def writeString (b : Buffer) (s : String) : Buffer :=
  writeShort b (len s) ++ strBytes s

/-- Modelled from the spec: every frame is a `uint32` total length followed by the
`uint16` command key, the `uint16` version (1) and, for a command-initiated exchange,
the `uint32` correlation id (`writeProtocolHeader` of the absent codec; the
correlation id is its variadic argument). -/
def writeProtocolHeader (b : Buffer) (length : Int) (command : Int)
    (correlationId : Option Int) : Buffer :=
  let b := writeInt b length
  let b := writeShort b command
  let b := writeShort b version1
  match correlationId with
  | some id => writeInt b id
  | none => b

/-- Modelled from the spec: a response frame sets the high bit of the command key,
`cmd | 0x8000` (`uShortEncodeResponseCode` of the absent codec). -/
def uShortEncodeResponseCode (code : Nat) : Nat :=
  code ||| 0x8000

/-! ## Socket -/

/-- Modelled from the spec: the socket owns one connection; `connected` is its
observable state, `written` every buffer flushed to the connection. -/
structure socket where
  connected : Bool
  written : List Buffer
  deriving DecidableEq, Repr

/-- Modelled from the spec: `is_open()` is the observable connection state. -/
def socket.isOpen (s : socket) : Bool :=
  s.connected

/-- Modelled from the spec: `write_and_flush(bytes)` returns a transport error if
the socket is closed, and puts the bytes on the wire otherwise. -/
def socket.writeAndFlush (s : socket) (buffer : Buffer) : socket × Option GoError :=
  if s.connected then ({ s with written := s.written ++ [buffer] }, none)
  else (s, some "socket connection closed")

/-- Modelled from the spec: `shutdown(cause)` is idempotent; it closes the
underlying socket and transitions to closed. -/
def socket.shutdown (s : socket) : socket :=
  { s with connected := false }

/-! ## Coordinator -/

/-- Modelled from the spec: a response slot, named by its correlation id or by a
symbolic name. Its channels carry what the broker answers, which this development
passes to the waiting command as an argument. -/
structure Response where
  correlationid : Nat
  subId : String
  deriving DecidableEq, Repr

structure Producer where
  ID : Nat
  streamName : String
  deriving DecidableEq, Repr

/-- The offset specification of a subscription: its `int16` type tag and its value. -/
structure OffsetSpecification where
  typeOfs : Int
  offset : Int
  deriving DecidableEq, Repr

structure ConsumerOptions where
  streamName : String
  ConsumerName : String
  Offset : OffsetSpecification
  deriving DecidableEq, Repr

structure Consumer where
  ID : Nat
  options : ConsumerOptions
  deriving DecidableEq, Repr

/-- Modelled from the spec: the per-connection registry. Pending responses are
indexed by correlation id, with a by-name index beside them; producers and consumers
are indexed by their 8-bit id. The order of a table is the order in which a Go
`range` over it visits its entries. -/
structure Coordinator where
  counter : Nat
  producers : List (Nat × Producer)
  consumers : List (Nat × Consumer)
  responses : List (Nat × Response)
  named : List (String × Response)
  deriving DecidableEq, Repr

/-- Remove the entry of a key from a table. -/
def removeKey {κ α : Type} [BEq κ] (id : κ) (t : List (κ × α)) : List (κ × α) :=
  t.filter (fun e => !(e.1 == id))

/-- Modelled from the spec: `new_response(command[, name])` allocates the next
correlation id (monotonic within a connection) and registers a slot. -/
def Coordinator.NewResponse (co : Coordinator) (_commandId : Nat) (info : String) :
    Coordinator × Response :=
  let r : Response := { correlationid := co.counter + 1, subId := info }
  ({ co with counter := co.counter + 1, responses := co.responses ++ [(r.correlationid, r)] }, r)

/-- Modelled from the spec: `new_response_named(name)` allocates only a symbolic name. -/
def Coordinator.NewResponseWitName (co : Coordinator) (name : String) :
    Coordinator × Response :=
  let r : Response := { correlationid := 0, subId := name }
  ({ co with named := co.named ++ [(name, r)] }, r)

/-- Modelled from the spec: `remove_by_id(id)` frees a slot; the registry answers
"not found" when there is none. -/
def Coordinator.RemoveResponseById (co : Coordinator) (id : Nat) :
    Coordinator × Option GoError :=
  match co.responses.lookup id with
  | none => (co, some "response not found")
  | some _ => ({ co with responses := removeKey id co.responses }, none)

/-- Modelled from the spec: `remove_by_name(name)` frees a named slot. -/
def Coordinator.RemoveResponseByName (co : Coordinator) (name : String) :
    Coordinator × Option GoError :=
  match co.named.lookup name with
  | none => (co, some "response not found")
  | some _ => ({ co with named := removeKey name co.named }, none)

/-- Modelled from the spec: look a named slot up. -/
def Coordinator.GetResponseByName (co : Coordinator) (name : String) :
    Except GoError Response :=
  match co.named.lookup name with
  | none => .error "response not found"
  | some r => .ok r

/-- Modelled from the spec: allocation finds the lowest free id in [0, 255]. -/
def getNextItem {α : Type} (t : List (Nat × α)) : Option Nat :=
  (List.range 256).find? (fun i => (t.lookup i).isNone)

/-- Modelled from the spec: `allocate_producer_id()` takes the lowest unused id in
[0, 255] and fails with "too many producers" otherwise; the producer is registered
under it. -/
def Coordinator.NewProducer (co : Coordinator) (streamName : String) :
    Except GoError (Coordinator × Producer) :=
  match getNextItem co.producers with
  | none => .error "too many producers"
  | some id =>
    let p : Producer := { ID := id, streamName := streamName }
    .ok ({ co with producers := co.producers ++ [(id, p)] }, p)

/-- Modelled from the spec: `allocate_consumer_id()` takes the lowest unused id in
[0, 255] and fails with "too many consumers" otherwise; the consumer is registered
under it. -/
def Coordinator.NewConsumer (co : Coordinator) (options : ConsumerOptions) :
    Except GoError (Coordinator × Consumer) :=
  match getNextItem co.consumers with
  | none => .error "too many consumers"
  | some id =>
    let cs : Consumer := { ID := id, options := options }
    .ok ({ co with consumers := co.consumers ++ [(id, cs)] }, cs)

/-- Modelled from the spec: removing a producer by id; the registry answers
"not found" when the id is not in the producer table. -/
def Coordinator.RemoveProducerById (co : Coordinator) (id : Nat) :
    Coordinator × Option GoError :=
  match co.producers.lookup id with
  | none => (co, some "producer not found")
  | some _ => ({ co with producers := removeKey id co.producers }, none)

/-- Modelled from the spec: removing a consumer by id; the registry answers
"not found" when the id is not in the consumer table. -/
def Coordinator.RemoveConsumerById (co : Coordinator) (id : Nat) :
    Coordinator × Option GoError :=
  match co.consumers.lookup id with
  | none => (co, some "consumer not found")
  | some _ => ({ co with consumers := removeKey id co.consumers }, none)

/-! ## Client -/

/-- The client: its socket, the `sync.Once` that guards the heartbeat shutdown
(`true` once it has run) and its coordinator. -/
structure Client where
  socket : socket
  destructor : Bool
  coordinator : Coordinator
  deriving DecidableEq, Repr

/-- What the broker does with a request that waits for a response code. -/
inductive Reply where
  | code (k : Nat)
  | timeout
  deriving DecidableEq, Repr

/-- What an offset query comes back with: the stored offset, or a failure (a broker
error code or a timeout, as its message). -/
inductive OffsetReply where
  | offset (x : Int)
  | failure (err : GoError)
  deriving DecidableEq, Repr

/-- Modelled from the spec: `handleWrite` hands the bytes to the socket writer and
waits for the response; the slot is freed on every exit path; a transport error, a
timeout or a response code other than OK is returned to the caller. -/
def Client.handleWrite (c : Client) (buffer : Buffer) (resp : Response) (reply : Reply) :
    Client × Option GoError :=
  let (s, errWrite) := c.socket.writeAndFlush buffer
  let (co, _) := c.coordinator.RemoveResponseById resp.correlationid
  let c := { c with socket := s, coordinator := co }
  match errWrite with
  | some e => (c, some e)
  | none =>
    match reply with
    | .timeout => (c, some "timeout")
    | .code k => if k = responseCodeOk then (c, none) else (c, some (lookErrorCode k))

/-- The method `getSaslMechanisms` of client.go; `data` is what arrives on the
response slot. -/
def Client.getSaslMechanisms (c : Client) (data : List String) :
    Client × Except GoError (List String) :=
  let length : Int := 2 + 2 + 4
  let (co, resp) := c.coordinator.NewResponse commandSaslHandshake ""
  let c : Client := { c with coordinator := co }
  let correlationId := resp.correlationid
  let b := writeProtocolHeader [] length commandSaslHandshake (some correlationId)
  let (s, errWrite) := c.socket.writeAndFlush b
  let c : Client := { c with socket := s }
  let (co, err) := c.coordinator.RemoveResponseById correlationId
  let c : Client := { c with coordinator := co }
  match err with
  | some e => (c, .error e)
  | none =>
    match errWrite with
    | some e => (c, .error e)
    | none => (c, .ok data)

/-- The method `sendSaslAuthenticate` of client.go; `reply` answers the request and
`tuneData` is the tune frame that arrives on the slot named "tune". -/
def Client.sendSaslAuthenticate (c : Client) (saslMechanism : String)
    (challengeResponse : Buffer) (reply : Reply) (tuneData : Buffer) :
    Client × Option GoError :=
  let length : Int := 2 + 2 + 4 + 2 + len saslMechanism + 4 + challengeResponse.length
  let (co, resp) := c.coordinator.NewResponse commandSaslAuthenticate ""
  let (co, _respTune) := co.NewResponseWitName "tune"
  let c : Client := { c with coordinator := co }
  let correlationId := resp.correlationid
  let b := writeProtocolHeader [] length commandSaslAuthenticate (some correlationId)
  let b := writeString b saslMechanism
  let b := writeInt b challengeResponse.length
  let b := b ++ challengeResponse
  match c.handleWrite b resp reply with
  | (c, some err) => (c, some err)
  | (c, none) =>
    let (co, err) := c.coordinator.RemoveResponseByName "tune"
    let c : Client := { c with coordinator := co }
    match err with
    | some e => (c, some e)
    | none =>
      let (s, errWrite) := c.socket.writeAndFlush tuneData
      ({ c with socket := s }, errWrite)

/-- The mechanism the loop of `authenticate` ends with. -/
def selectMechanism (saslMechanisms : List String) : String :=
  saslMechanisms.foldl (fun saslMechanism m => if m == "PLAIN" then "PLAIN" else saslMechanism) ""

/-- The method `authenticate` of client.go; `mechanisms` is what the broker answers
to the handshake. -/
def Client.authenticate (c : Client) (user password : String) (mechanisms : List String)
    (reply : Reply) (tuneData : Buffer) : Client × Option GoError :=
  match c.getSaslMechanisms mechanisms with
  | (c, .error err) => (c, some err)
  | (c, .ok saslMechanisms) =>
    let saslMechanism := selectMechanism saslMechanisms
    let response := unicodeNull ++ user ++ unicodeNull ++ password
    let saslResponse := strBytes response
    c.sendSaslAuthenticate saslMechanism saslResponse reply tuneData

/-- The method `closeHartBeat` of client.go: the once-guarded body looks the
"heartbeat" slot up and sends it the `closeChannel` code, which tells the heartbeat
task to stop and changes no table. -/
def Client.closeHartBeat (c : Client) : Client :=
  if c.destructor then c
  else
    let c : Client := { c with destructor := true }
    match c.coordinator.GetResponseByName "heartbeat" with
    | .error _ => c
    | .ok _ => c

/-- The first loop of `Close`: a `range` over the producer table that removes each
producer it visits (an entry removed before it is reached is not visited). -/
def closeProducers (co : Coordinator) : Coordinator :=
  co.producers.foldl (fun co e =>
    if (co.producers.lookup e.1).isSome then (co.RemoveProducerById e.2.ID).1 else co) co

/-- The second loop of `Close`: a `range` over the consumer table whose body calls
`RemoveProducerById` with the consumer's id. -/
def closeConsumers (co : Coordinator) : Coordinator :=
  co.consumers.foldl (fun co e =>
    if (co.consumers.lookup e.1).isSome then (co.RemoveProducerById e.2.ID).1 else co) co

/-- The method `Close` of client.go. -/
def Client.Close (c : Client) : Client × Option GoError :=
  let c : Client := { c with coordinator := closeProducers c.coordinator }
  let c : Client := { c with coordinator := closeConsumers c.coordinator }
  let (c, err) : Client × Option GoError :=
    if c.socket.isOpen then
      let c := c.closeHartBeat
      let (co, res) := c.coordinator.NewResponse commandClose ""
      let c : Client := { c with coordinator := co }
      let length : Int := 2 + 2 + 4 + 2
      let b := writeProtocolHeader [] length (int16 (uShortEncodeResponseCode commandClose))
        (some res.correlationid)
      let b := writeUShort b responseCodeOk
      let (s, err) := c.socket.writeAndFlush b
      let (co, _) := c.coordinator.RemoveResponseById res.correlationid
      ({ c with socket := s, coordinator := co }, err)
    else (c, none)
  ({ c with socket := c.socket.shutdown }, err)

/-- The method `DeclarePublisher` of client.go. -/
def Client.DeclarePublisher (c : Client) (streamName : String) (reply : Reply) :
    Client × Option Producer × Option GoError :=
  match c.coordinator.NewProducer streamName with
  | .error err => (c, none, some err)
  | .ok (co, producer) =>
    let c : Client := { c with coordinator := co }
    let publisherReferenceSize : Int := 0
    let length : Int := 2 + 2 + 4 + 1 + 2 + publisherReferenceSize + 2 + len streamName
    let (co, resp) := c.coordinator.NewResponse commandDeclarePublisher streamName
    let c : Client := { c with coordinator := co }
    let correlationId := resp.correlationid
    let b := writeProtocolHeader [] length commandDeclarePublisher (some correlationId)
    let b := writeByte b producer.ID
    let b := writeShort b (int16 publisherReferenceSize)
    let b := writeString b streamName
    let (c, res) := c.handleWrite b resp reply
    (c, some producer, res)

/-! ## stream_options.go -/

/-- The type `ByteCapacity`, declared outside the sources at hand: a byte count and
the error met while it was built. -/
structure ByteCapacity where
  bytes : Int
  error : Option GoError
  deriving DecidableEq, Repr

/-- The struct `StreamOptions`; `MaxAge` is a `time.Duration`, a count of
nanoseconds, and a `nil` capacity is `none`. -/
structure StreamOptions where
  MaxAge : Int
  MaxLengthBytes : Option ByteCapacity
  MaxSegmentSizeBytes : Option ByteCapacity
  QueueLeaderLocator : String
  InitialClusterSize : Int
  deriving DecidableEq, Repr

/-- A Go `map[string]string`: its entries, one per key. -/
abbrev GoMap := List (String × String)

/-- The assignment `m[k] = v`. -/
def mapSet (m : GoMap) (k v : String) : GoMap :=
  if (m.lookup k).isSome then m.map (fun e => if e.1 == k then (k, v) else e)
  else m ++ [(k, v)]

/-- The call `fmt.Sprintf("%d", n)`. -/
def sprintfD (n : Int) : String :=
  toString n

/-- Rounding to the nearest integer, ties to the even one. -/
def roundHalfEven (x : ℚ) : ℤ :=
  let f := ⌊x⌋
  if x - f < 1 / 2 then f
  else if 1 / 2 < x - f then f + 1
  else if f % 2 = 0 then f
  else f + 1

/-- The binary64 value nearest to a rational (53 significant bits, ties to even;
the exponent range is not modelled, the values here stay far inside it). -/
def float64 (x : ℚ) : ℚ :=
  if x = 0 then 0
  else
    let e : ℤ := Int.log 2 |x| - 52
    roundHalfEven (x / 2 ^ e) * 2 ^ e

/-- The method `Duration.Seconds` of the Go library:
`float64(d / Second) + float64(d % Second) / 1e9`, in binary64 arithmetic. -/
def durationSeconds (d : Int) : ℚ :=
  let sec := Int.tdiv d 1000000000
  let nsec := Int.tmod d 1000000000
  float64 (float64 sec + float64 (float64 nsec / 1000000000))

/-- The call `fmt.Sprintf("%.0fs", x)`: no digit after the point, the value rounded
to the nearest integer (ties to even), then the letter s. -/
def sprintfSeconds (x : ℚ) : String :=
  toString (roundHalfEven x) ++ "s"

/-- The function `NewStreamOptions` of stream_options.go: the zero value. -/
def NewStreamOptions : StreamOptions :=
  { MaxAge := 0, MaxLengthBytes := none, MaxSegmentSizeBytes := none,
    QueueLeaderLocator := "", InitialClusterSize := 0 }

/-- The capacity block of `buildParameters`, which it runs once for
`MaxLengthBytes` and once for `MaxSegmentSizeBytes`. -/
def setCapacity (res : GoMap) (key : String) (capacity : Option ByteCapacity) :
    Except GoError GoMap :=
  match capacity with
  | none => .ok res
  | some m =>
    match m.error with
    | some err => .error err
    | none => if m.bytes > 0 then .ok (mapSet res key (sprintfD m.bytes)) else .ok res

/-- The method `buildParameters` of stream_options.go. -/
def StreamOptions.buildParameters (s : StreamOptions) : Except GoError GoMap :=
  let res : GoMap := []
  let res :=
    if s.QueueLeaderLocator != "" then mapSet res "queue-leader-locator" s.QueueLeaderLocator
    else mapSet res "queue-leader-locator" "least-leaders"
  let res :=
    if s.InitialClusterSize > 0 then
      mapSet res "initial-cluster-size" (sprintfD s.InitialClusterSize)
    else res
  match setCapacity res "max-length-bytes" s.MaxLengthBytes with
  | .error err => .error err
  | .ok res =>
    match setCapacity res "stream-max-segment-size-bytes" s.MaxSegmentSizeBytes with
    | .error err => .error err
    | .ok res =>
      if s.MaxAge > 0 then
        .ok (mapSet res "max-age" (sprintfSeconds (durationSeconds s.MaxAge)))
      else .ok res

/-- The map the specification describes for options without an error: the entries
it names, each present exactly under its condition. -/
def expectedParameters (s : StreamOptions) : GoMap :=
  [("queue-leader-locator",
      if s.QueueLeaderLocator = "" then "least-leaders" else s.QueueLeaderLocator)]
  ++ (if 0 < s.InitialClusterSize then
        [("initial-cluster-size", toString s.InitialClusterSize)] else [])
  ++ (match s.MaxLengthBytes with
      | some m => if 0 < m.bytes then [("max-length-bytes", toString m.bytes)] else []
      | none => [])
  ++ (match s.MaxSegmentSizeBytes with
      | some m =>
        if 0 < m.bytes then [("stream-max-segment-size-bytes", toString m.bytes)] else []
      | none => [])
  ++ (if 0 < s.MaxAge then [("max-age", toString (s.MaxAge / 1000000000) ++ "s")] else [])

/-- The error a capacity carries, if it is set and carries one. -/
def capacityError (capacity : Option ByteCapacity) : Option GoError :=
  match capacity with
  | some m => m.error
  | none => none

/-- The error the options carry: that of `MaxLengthBytes` when it carries one,
otherwise that of `MaxSegmentSizeBytes`. -/
def parametersError (s : StreamOptions) : Option GoError :=
  match capacityError s.MaxLengthBytes with
  | some err => some err
  | none => capacityError s.MaxSegmentSizeBytes

/-- The bytes one argument of a create-stream frame takes: two length-prefixed
strings. -/
def argumentSize (kv : String × String) : Nat :=
  2 + len kv.1 + 2 + len kv.2

/-- The method `DeclareStream` of client.go. `range1` and `range2` are the orders
in which its two `range` loops visit the argument map. -/
def Client.DeclareStream (c : Client) (streamName : String) (options : Option StreamOptions)
    (range1 range2 : GoMap → GoMap) (reply : Reply) : Client × Option GoError :=
  if streamName == "" then (c, some "stream name can't be empty")
  else
    let (co, resp) := c.coordinator.NewResponse commandCreateStream streamName
    let c : Client := { c with coordinator := co }
    let length : Int := 2 + 2 + 4 + 2 + len streamName + 4
    let correlationId := resp.correlationid
    let options := match options with
      | none => NewStreamOptions
      | some o => o
    match options.buildParameters with
    | .error err =>
      let (co, _) := c.coordinator.RemoveResponseById resp.correlationid
      ({ c with coordinator := co }, some err)
    | .ok args =>
      let length := (range1 args).foldl
        (fun (length : Int) (kv : String × String) => length + 2 + len kv.1 + 2 + len kv.2) length
      let b := writeProtocolHeader [] length commandCreateStream (some correlationId)
      let b := writeString b streamName
      let b := writeInt b args.length
      let b := (range2 args).foldl (fun b kv => writeString (writeString b kv.1) kv.2) b
      c.handleWrite b resp reply

/-! ## Subscriptions -/

/-- Modelled from the spec: the `int16` type tags of the offset specifications
(First, Last, Next, Offset, Timestamp and the client-side LastConsumed). The
constants are declared outside the sources at hand and the specification gives them
no numbers, so they are parameters. So is `offsetCoversLastConsumed`: whether the
method `isOffset`, declared with them, also answers true on the LastConsumed tag is
fixed neither by the sources at hand nor by the specification. -/
structure OffsetTypes where
  typeFirst : Int
  typeLast : Int
  typeNext : Int
  typeOffset : Int
  typeTimestamp : Int
  typeLastConsumed : Int
  offsetCoversLastConsumed : Bool
  deriving DecidableEq, Repr

/-- The six tags are six different numbers. -/
def OffsetTypes.Distinct (T : OffsetTypes) : Prop :=
  [T.typeFirst, T.typeLast, T.typeNext, T.typeOffset, T.typeTimestamp,
    T.typeLastConsumed].Nodup

instance (T : OffsetTypes) : Decidable T.Distinct :=
  inferInstanceAs (Decidable (List.Nodup _))

/-- Modelled from the spec: `isOffset` holds of the Offset variant of the tagged
offset specification, the one whose tag is followed by a value on the wire (the
method is declared outside the sources at hand). What it answers on the
LastConsumed tag is the parameter `offsetCoversLastConsumed`. -/
def OffsetTypes.isOffset (T : OffsetTypes) (o : OffsetSpecification) : Bool :=
  o.typeOfs == T.typeOffset ||
    (T.offsetCoversLastConsumed && o.typeOfs == T.typeLastConsumed)

/-- Modelled from the spec: `isTimestamp` holds of the Timestamp variant. -/
def OffsetTypes.isTimestamp (T : OffsetTypes) (o : OffsetSpecification) : Bool :=
  o.typeOfs == T.typeTimestamp

/-- Modelled from the spec: `isLastConsumed` holds of the LastConsumed variant. -/
def OffsetTypes.isLastConsumed (T : OffsetTypes) (o : OffsetSpecification) : Bool :=
  o.typeOfs == T.typeLastConsumed

/-- Modelled from the spec: `query_offset()` sends
`commandQueryOffset(subscription-name, stream)` and returns the stored offset; its
slot is freed on every exit path. The method is not in the sources. -/
def Consumer.QueryOffset (consumer : Consumer) (c : Client) (answer : OffsetReply) :
    Client × Except GoError Int :=
  let length : Int :=
    2 + 2 + 4 + 2 + len consumer.options.ConsumerName + 2 + len consumer.options.streamName
  let (co, resp) := c.coordinator.NewResponse commandQueryOffset ""
  let c : Client := { c with coordinator := co }
  let b := writeProtocolHeader [] length commandQueryOffset (some resp.correlationid)
  let b := writeString b consumer.options.ConsumerName
  let b := writeString b consumer.options.streamName
  let (s, errWrite) := c.socket.writeAndFlush b
  let (co, _) := c.coordinator.RemoveResponseById resp.correlationid
  let c : Client := { c with socket := s, coordinator := co }
  match errWrite with
  | some e => (c, .error e)
  | none =>
    match answer with
    | .offset x => (c, .ok x)
    | .failure err => (c, .error err)

/-- The consumer table after `options`, which the registered consumer shares with
the caller, has been assigned to. -/
def setConsumerOptions (co : Coordinator) (id : Nat) (options : ConsumerOptions) :
    Coordinator :=
  { co with consumers :=
      co.consumers.map (fun e => if e.1 == id then (e.1, { e.2 with options := options }) else e) }

/-- The method `DeclareSubscriber` of client.go, up to the start of the delivery
task. `query` answers the offset query and `reply` the subscription. When no consumer
id is free the call stops with the allocation error (the sources do not show how
`NewConsumer`, which returns the consumer alone, reports it). -/
def Client.DeclareSubscriber (T : OffsetTypes) (c : Client) (streamName : String)
    (options : ConsumerOptions) (query : OffsetReply) (reply : Reply) :
    Client × Option Consumer × Option GoError :=
  let options : ConsumerOptions := { options with streamName := streamName }
  match c.coordinator.NewConsumer options with
  | .error err => (c, none, some err)
  | .ok (co, consumer) =>
    let c : Client := { c with coordinator := co }
    let length : Int := 2 + 2 + 4 + 1 + 2 + len streamName + 2 + 2
    let length := if T.isOffset options.Offset || T.isTimestamp options.Offset
      then length + 8 else length
    let queried : Client × Except GoError ConsumerOptions :=
      if T.isLastConsumed options.Offset then
        match consumer.QueryOffset c query with
        | (c, .error err) => (c, .error err)
        | (c, .ok lastOffset) =>
          let options : ConsumerOptions :=
            { options with Offset := { typeOfs := T.typeOffset, offset := lastOffset } }
          ({ c with coordinator := setConsumerOptions c.coordinator consumer.ID options },
            .ok options)
      else (c, .ok options)
    match queried with
    | (c, .error err) =>
      let (co, _) := c.coordinator.RemoveConsumerById consumer.ID
      ({ c with coordinator := co }, none, some err)
    | (c, .ok options) =>
      let consumer : Consumer := { consumer with options := options }
      let (co, resp) := c.coordinator.NewResponse commandSubscribe streamName
      let c : Client := { c with coordinator := co }
      let correlationId := resp.correlationid
      let b := writeProtocolHeader [] length commandSubscribe (some correlationId)
      let b := writeByte b consumer.ID
      let b := writeString b streamName
      let b := writeShort b options.Offset.typeOfs
      let b := if T.isOffset options.Offset || T.isTimestamp options.Offset
        then writeLong b options.Offset.offset else b
      let b := writeShort b 10
      let (c, res) := c.handleWrite b resp reply
      (c, some consumer, res)

/-! ## Frames, as the claims describe them -/

/-- The SaslAuthenticate frame, byte by byte: size, key 19, version 1, correlation
id, the mechanism as a string, the challenge response as a byte array. -/
def saslAuthenticateFrame (correlationId : Nat) (saslMechanism : String)
    (challengeResponse : Buffer) : Buffer :=
  bigEndian 4 (2 + 2 + 4 + 2 + len saslMechanism + 4 + challengeResponse.length : Nat) ++
    bigEndian 2 commandSaslAuthenticate ++ bigEndian 2 version1 ++
    bigEndian 4 correlationId ++
    bigEndian 2 (len saslMechanism) ++ strBytes saslMechanism ++
    bigEndian 4 challengeResponse.length ++ challengeResponse

/-- The SaslHandshake frame: size 8, key 18, version 1, correlation id. -/
def saslHandshakeFrame (correlationId : Nat) : Buffer :=
  bigEndian 4 8 ++ bigEndian 2 commandSaslHandshake ++ bigEndian 2 version1 ++
    bigEndian 4 correlationId

/-- The QueryOffset frame, byte by byte: size, key 11, version 1, correlation id,
subscription name, stream name. -/
def queryOffsetFrame (correlationId : Nat) (consumerName streamName : String) : Buffer :=
  bigEndian 4 (2 + 2 + 4 + 2 + len consumerName + 2 + len streamName : Nat) ++
    bigEndian 2 commandQueryOffset ++ bigEndian 2 version1 ++ bigEndian 4 correlationId ++
    bigEndian 2 (len consumerName) ++ strBytes consumerName ++
    bigEndian 2 (len streamName) ++ strBytes streamName

/-- The Subscribe frame, byte by byte: the size field, key 7, version 1, correlation
id, consumer id, stream name, the `int16` offset type, the `int64` value when there
is one, and the `int16` credit 10. -/
def subscribeFrame (size : Nat) (correlationId consumerID : Nat) (streamName : String)
    (typeOfs : Int) (value : Option Int) : Buffer :=
  bigEndian 4 size ++
    bigEndian 2 commandSubscribe ++ bigEndian 2 version1 ++ bigEndian 4 correlationId ++
    bigEndian 1 consumerID ++
    bigEndian 2 (len streamName) ++ strBytes streamName ++
    bigEndian 2 typeOfs ++
    (match value with
      | some x => bigEndian 8 x
      | none => []) ++
    bigEndian 2 10

/-- The command key of a frame: the two bytes after the size field. -/
def frameKey (f : Buffer) : Nat :=
  readUInt ((f.drop 4).take 2)

/-- The size field of a frame: its first four bytes. -/
def frameSize (f : Buffer) : Nat :=
  readUInt (f.take 4)

/-- The bytes of a frame that follow its size field. -/
def frameBody (f : Buffer) : Buffer :=
  f.drop 4

/-- A tune frame as the broker sends it. -/
def sampleTune : Buffer :=
  [0, 0, 0, 12, 0, 20, 0, 1, 0, 16, 0, 0, 0, 0, 0, 60]

/-! ## Concrete inputs -/

/-- A connected client with empty tables. -/
def freshClient : Client :=
  { socket := { connected := true, written := [] }, destructor := false,
    coordinator := { counter := 0, producers := [], consumers := [], responses := [],
                     named := [] } }

/-- The tags numbered one to six, with an `isOffset` that tests the Offset tag alone. -/
def sampleTypes : OffsetTypes :=
  { typeFirst := 1, typeLast := 2, typeNext := 3, typeOffset := 4, typeTimestamp := 5,
    typeLastConsumed := 6, offsetCoversLastConsumed := false }

/-- The tags numbered one to six, with an `isOffset` that also accepts LastConsumed. -/
def coveringTypes : OffsetTypes :=
  { sampleTypes with offsetCoversLastConsumed := true }

/-- Options of a subscription that starts at the last consumed offset, under the
tags of `sampleTypes`. -/
def lastConsumedOptions : ConsumerOptions :=
  { streamName := "", ConsumerName := "n", Offset := { typeOfs := 6, offset := 0 } }

/-- The consumer `freshClient` registers for `lastConsumedOptions` on stream "s". -/
def sampleConsumer : Consumer :=
  { ID := 0, options := { lastConsumedOptions with streamName := "s" } }

/-- Stream options with a maximum age of one hour, a maximum length of five bytes
and three replicas. -/
def sampleOptions : StreamOptions :=
  { MaxAge := 3600000000000, MaxLengthBytes := some { bytes := 5, error := none },
    MaxSegmentSizeBytes := none, QueueLeaderLocator := "", InitialClusterSize := 3 }

/-- Stream options whose two capacities both carry an error. -/
def failingOptions : StreamOptions :=
  { sampleOptions with
    MaxLengthBytes := some { bytes := 0, error := some "invalid max length" },
    MaxSegmentSizeBytes := some { bytes := 0, error := some "invalid segment size" } }

/-- A connected client with one registered consumer, of id 0, and no producer. -/
def oneConsumerClient : Client :=
  { freshClient with
    coordinator :=
      { counter := 0, producers := [],
        consumers := [(0, { ID := 0, options := { streamName := "s", ConsumerName := "n",
                                                  Offset := { typeOfs := 1, offset := 0 } } })],
        responses := [], named := [] } }

/-! ## Codec lemmas -/

theorem length_bigEndian (w : Nat) (v : Int) : (bigEndian w v).length = w := by
  induction w generalizing v with
  | zero => rfl
  | succ n ih => simp [bigEndian, ih]

theorem readUInt_append_singleton (bs : Buffer) (x : Nat) :
    readUInt (bs ++ [x]) = readUInt bs * 256 + x := by
  simp [readUInt, List.foldl_append]

theorem emod_split (v A : Int) (hA : 0 < A) :
    v / 256 % A * 256 + v % 256 = v % (A * 256) := by
  have h1 := Int.emod_add_ediv (v / 256) A
  have h2 := Int.emod_add_ediv v 256
  have h3 : 0 ≤ v / 256 % A := Int.emod_nonneg _ hA.ne'
  have h4 : v / 256 % A < A := Int.emod_lt_of_pos _ hA
  have h5 : 0 ≤ v % 256 := Int.emod_nonneg _ (by norm_num)
  have h6 : v % 256 < 256 := Int.emod_lt_of_pos _ (by norm_num)
  have hpos : 0 < A * 256 := by positivity
  have key := (Int.ediv_emod_unique (a := v) (q := v / 256 / A)
    (r := v / 256 % A * 256 + v % 256) hpos).mpr
  refine (key ⟨?_, ?_, ?_⟩).2.symm
  · linear_combination 256 * h1 + h2
  · positivity
  · generalize v / 256 % A = m at *
    generalize v % 256 = r at *
    omega

theorem readUInt_bigEndian (w : Nat) (v : Int) :
    (readUInt (bigEndian w v) : Int) = v % 256 ^ w := by
  induction w generalizing v with
  | zero => simp [bigEndian, readUInt, Int.emod_one]
  | succ n ih =>
    rw [bigEndian, readUInt_append_singleton]
    push_cast
    rw [ih, Int.toNat_of_nonneg (Int.emod_nonneg _ (by norm_num)), pow_succ]
    exact emod_split v (256 ^ n) (by positivity)

/-- A number below `256 ^ w` is read back from its `w` big-endian bytes. -/
theorem readUInt_bigEndian_of_lt (w n : Nat) (h : n < 256 ^ w) :
    readUInt (bigEndian w n) = n := by
  have := readUInt_bigEndian w n
  rw [Int.emod_eq_of_lt (by positivity) (by exact_mod_cast h)] at this
  exact_mod_cast this

/-! ## Table lemmas -/

theorem lookup_removeKey {α : Type} (id : Nat) (t : List (Nat × α)) :
    (removeKey id t).lookup id = none := by
  induction t with
  | nil => rfl
  | cons e t ih =>
    by_cases h : e.1 = id
    · simp [removeKey, h] at ih ⊢
      exact ih
    · have h2 : (id == e.1) = false := by simpa using fun h3 => h h3.symm
      simp [removeKey, h, List.lookup, h2] at ih ⊢
      exact ih

theorem removeKey_snoc {α : Type} (k : Nat) (v : α) (t : List (Nat × α)) :
    removeKey k (t ++ [(k, v)]) = removeKey k t := by
  simp [removeKey]

theorem lookup_snoc_ne_none {α : Type} (k : Nat) (v : α) (t : List (Nat × α)) :
    ∃ r, (t ++ [(k, v)]).lookup k = some r := by
  induction t with
  | nil => exact ⟨v, by simp [List.lookup]⟩
  | cons e t ih =>
    obtain ⟨r, hr⟩ := ih
    by_cases h : k = e.1
    · exact ⟨e.2, by simp [List.lookup, h]⟩
    · have h2 : (k == e.1) = false := by simpa using h
      exact ⟨r, by simp [List.lookup, h2, hr]⟩

/-- A slot that was just registered is found and freed by its correlation id. -/
theorem NewResponse_RemoveResponseById (co : Coordinator) (cmd : Nat) (info : String) :
    (co.NewResponse cmd info).1.RemoveResponseById (co.counter + 1) =
      ({ co with counter := co.counter + 1,
                 responses := removeKey (co.counter + 1) co.responses }, none) := by
  obtain ⟨r, hr⟩ := lookup_snoc_ne_none (co.counter + 1)
    ({ correlationid := co.counter + 1, subId := info } : Response) co.responses
  simp [Coordinator.NewResponse, Coordinator.RemoveResponseById, hr, removeKey_snoc]

/-! ## Close -/

theorem RemoveProducerById_frame (co : Coordinator) (id : Nat) :
    (co.RemoveProducerById id).1.counter = co.counter ∧
    (co.RemoveProducerById id).1.consumers = co.consumers ∧
    (co.RemoveProducerById id).1.responses = co.responses ∧
    (co.RemoveProducerById id).1.named = co.named := by
  unfold Coordinator.RemoveProducerById
  split <;> simp

theorem foldl_removeProducer_frame {α : Type} (l : List (Nat × α)) (key : α → Nat)
    (visit : Coordinator → Nat × α → Bool) (co : Coordinator) :
    let co2 := l.foldl (fun co e =>
      if visit co e then (co.RemoveProducerById (key e.2)).1 else co) co
    co2.counter = co.counter ∧ co2.consumers = co.consumers ∧
    co2.responses = co.responses ∧ co2.named = co.named := by
  induction l generalizing co with
  | nil => simp
  | cons e l ih =>
    simp only [List.foldl_cons]
    by_cases h : visit co e = true
    · simp only [h, if_true]
      obtain ⟨h1, h2, h3, h4⟩ := RemoveProducerById_frame co (key e.2)
      obtain ⟨g1, g2, g3, g4⟩ := ih (co.RemoveProducerById (key e.2)).1
      exact ⟨g1.trans h1, g2.trans h2, g3.trans h3, g4.trans h4⟩
    · simp only [h]
      exact ih co

theorem closeProducers_frame (co : Coordinator) :
    (closeProducers co).counter = co.counter ∧ (closeProducers co).consumers = co.consumers ∧
    (closeProducers co).responses = co.responses ∧ (closeProducers co).named = co.named :=
  foldl_removeProducer_frame co.producers Producer.ID
    (fun co e => (co.producers.lookup e.1).isSome) co

theorem closeConsumers_frame (co : Coordinator) :
    (closeConsumers co).counter = co.counter ∧ (closeConsumers co).consumers = co.consumers ∧
    (closeConsumers co).responses = co.responses ∧ (closeConsumers co).named = co.named :=
  foldl_removeProducer_frame co.consumers Consumer.ID
    (fun co e => (co.consumers.lookup e.1).isSome) co

theorem closeHartBeat_socket (c : Client) : c.closeHartBeat.socket = c.socket := by
  unfold Client.closeHartBeat
  split
  · rfl
  · dsimp only
    split <;> rfl

theorem closeHartBeat_coordinator (c : Client) :
    c.closeHartBeat.coordinator = c.coordinator := by
  unfold Client.closeHartBeat
  split
  · rfl
  · dsimp only
    split <;> rfl

theorem Close_of_closed (c : Client) (h : c.socket.isOpen = false) :
    c.Close.2 = none ∧ c.Close.1.socket.written = c.socket.written ∧
      c.Close.1.socket.isOpen = false := by
  have hc : c.socket.connected = false := h
  simp [Client.Close, hc, socket.shutdown, socket.isOpen]

theorem Close_closes (c : Client) : c.Close.1.socket.isOpen = false := by
  simp [Client.Close, socket.shutdown, socket.isOpen]

/-- Whatever the tables hold, `Close` leaves the consumer table as it found it:
both of its loops call `RemoveProducerById`. -/
theorem Close_consumers (c : Client) :
    c.Close.1.coordinator.consumers = c.coordinator.consumers := by
  obtain ⟨-, h2, -, -⟩ := closeProducers_frame c.coordinator
  obtain ⟨-, g2, -, -⟩ := closeConsumers_frame (closeProducers c.coordinator)
  by_cases hc : c.socket.connected = true
  · have hrem := NewResponse_RemoveResponseById (closeConsumers (closeProducers c.coordinator))
      commandClose ""
    have hid : ((closeConsumers (closeProducers c.coordinator)).NewResponse commandClose
        "").2.correlationid = (closeConsumers (closeProducers c.coordinator)).counter + 1 := rfl
    simp only [Client.Close, socket.isOpen, closeHartBeat_socket, closeHartBeat_coordinator, hc,
      if_true, hid, hrem, socket.writeAndFlush, socket.shutdown, g2, h2]
  · simp [Client.Close, socket.isOpen, hc, g2, h2]

theorem lookup_eq_none_iff_forall {α : Type} (k : Nat) (t : List (Nat × α)) :
    t.lookup k = none ↔ ∀ e ∈ t, e.1 ≠ k := by
  induction t with
  | nil => simp
  | cons e t ih =>
    obtain ⟨a, v⟩ := e
    by_cases h : k = a
    · subst h
      simp [List.lookup]
    · have h2 : (k == a) = false := by simpa using h
      have h3 : a ≠ k := fun h4 => h h4.symm
      simp [List.lookup, h2, ih, h3]

theorem mem_removeKey {α : Type} (k : Nat) (t : List (Nat × α)) (e : Nat × α) :
    e ∈ removeKey k t ↔ e ∈ t ∧ e.1 ≠ k := by
  simp [removeKey]

theorem foldl_closeProducers (l : List (Nat × Producer)) (co : Coordinator)
    (hkey : ∀ e ∈ l, e.1 = e.2.ID)
    (hsub : ∀ e ∈ co.producers, e.1 ∈ l.map Prod.fst) :
    (l.foldl (fun co e =>
      if (co.producers.lookup e.1).isSome then (co.RemoveProducerById e.2.ID).1 else co)
      co).producers = [] := by
  induction l generalizing co with
  | nil =>
    simp only [List.map_nil, List.not_mem_nil] at hsub
    simp only [List.foldl_nil]
    exact List.eq_nil_iff_forall_not_mem.mpr (fun e he => hsub e he)
  | cons e l ih =>
    simp only [List.foldl_cons]
    have hk : e.1 = e.2.ID := hkey e (List.mem_cons_self _ _)
    apply ih
    · exact fun e2 he2 => hkey e2 (List.mem_cons_of_mem _ he2)
    · intro e2 he2
      cases hlook : co.producers.lookup e.1 with
      | none =>
        simp only [hlook, Option.isSome_none, Bool.false_eq_true, if_false] at he2
        have hne := (lookup_eq_none_iff_forall e.1 co.producers).mp hlook e2 he2
        have := hsub e2 he2
        simp only [List.map_cons, List.mem_cons] at this
        rcases this with h | h
        · exact absurd h hne
        · exact h
      | some p =>
        simp only [hlook, Option.isSome_some, if_true, Coordinator.RemoveProducerById, ← hk]
          at he2
        rw [mem_removeKey] at he2
        have := hsub e2 he2.1
        simp only [List.map_cons, List.mem_cons] at this
        rcases this with h | h
        · exact absurd h he2.2
        · exact h

theorem closeProducers_producers (co : Coordinator)
    (hkey : ∀ e ∈ co.producers, e.1 = e.2.ID) : (closeProducers co).producers = [] :=
  foldl_closeProducers co.producers co hkey
    (fun _ he => List.mem_map_of_mem Prod.fst he)

theorem foldl_closeConsumers_producers (l : List (Nat × Consumer)) (co : Coordinator)
    (visit : Coordinator → Nat × Consumer → Bool) (h : co.producers = []) :
    (l.foldl (fun co e =>
      if visit co e then (co.RemoveProducerById e.2.ID).1 else co) co).producers = [] := by
  induction l generalizing co with
  | nil => exact h
  | cons e l ih =>
    simp only [List.foldl_cons]
    apply ih
    split
    · simp [Coordinator.RemoveProducerById, h]
    · exact h

/-- When every producer is registered under its own id, `Close` empties the
producer table. -/
theorem Close_producers (c : Client)
    (hkey : ∀ e ∈ c.coordinator.producers, e.1 = e.2.ID) :
    c.Close.1.coordinator.producers = [] := by
  have h1 := closeProducers_producers c.coordinator hkey
  have h2 : (closeConsumers (closeProducers c.coordinator)).producers = [] :=
    foldl_closeConsumers_producers _ _
      (fun co e => (co.consumers.lookup e.1).isSome) h1
  by_cases hc : c.socket.connected = true
  · have hrem := NewResponse_RemoveResponseById (closeConsumers (closeProducers c.coordinator))
      commandClose ""
    have hid : ((closeConsumers (closeProducers c.coordinator)).NewResponse commandClose
        "").2.correlationid = (closeConsumers (closeProducers c.coordinator)).counter + 1 := rfl
    simp only [Client.Close, socket.isOpen, closeHartBeat_socket, closeHartBeat_coordinator, hc,
      if_true, hid, hrem, socket.writeAndFlush, socket.shutdown, h2]
  · simp [Client.Close, socket.isOpen, hc, h2]


/-- C3, at the failing input: a connected client with no producer and one registered
consumer. After `Close` the consumer table still holds that consumer, where the
claim says it is empty. -/
theorem Close_leaves_consumer :
    oneConsumerClient.coordinator.consumers.length = 1 ∧
    oneConsumerClient.Close.1.coordinator.consumers = oneConsumerClient.coordinator.consumers ∧
    oneConsumerClient.Close.1.coordinator.consumers ≠ [] := by
  decide

/-- C9. Close is idempotent: a second `Close` after a first returns no error and
writes nothing to the socket, and so does every `Close` of a client whose socket is
already closed. -/
theorem Close_idempotent :
    (∀ c : Client, c.Close.1.Close.2 = none ∧
      c.Close.1.Close.1.socket.written = c.Close.1.socket.written) ∧
    (∀ c : Client, c.socket.isOpen = false →
      c.Close.2 = none ∧ c.Close.1.socket.written = c.socket.written) :=
  ⟨fun c => ⟨(Close_of_closed _ (Close_closes c)).1, (Close_of_closed _ (Close_closes c)).2.1⟩,
   fun c h => ⟨(Close_of_closed c h).1, (Close_of_closed c h).2.1⟩⟩

/-- C10, as stated, fails: closing a fresh connected client writes one frame whose
command key reads 32790 (22 with the response flag 0x8000), not 22. -/
theorem Close_key_counterexample :
    freshClient.socket.isOpen = true ∧
    freshClient.Close.1.socket.written = [[0, 0, 0, 10, 128, 22, 0, 1, 0, 0, 0, 1, 0, 1]] ∧
    ¬ (∃ f, freshClient.Close.1.socket.written = freshClient.socket.written ++ [f] ∧
        frameKey f = commandClose) := by
  refine ⟨by decide, by decide, ?_⟩
  rintro ⟨f, hf, hk⟩
  have h : freshClient.Close.1.socket.written =
      [[0, 0, 0, 10, 128, 22, 0, 1, 0, 0, 0, 1, 0, 1]] := by
    decide
  rw [h] at hf
  simp [freshClient] at hf
  subst hf
  revert hk
  decide

/-- C10 (amended). For every client whose socket is open, `Close` writes exactly one
frame: size 10, command key 32790 (`commandClose` with the response flag, 22 | 0x8000),
version 1, the correlation id just allocated and response code 1, all big-endian; the
slot allocated for it is gone from the coordinator when `Close` returns. -/
theorem Close_frame (c : Client) (h : c.socket.isOpen = true) :
    c.Close.1.socket.written = c.socket.written ++
      [bigEndian 4 10 ++ bigEndian 2 (uShortEncodeResponseCode commandClose) ++
        bigEndian 2 1 ++ bigEndian 4 (c.coordinator.counter + 1 : Nat) ++
        bigEndian 2 responseCodeOk] ∧
    uShortEncodeResponseCode commandClose = 32790 ∧
    c.Close.1.coordinator.responses.lookup (c.coordinator.counter + 1) = none := by
  obtain ⟨h1, h2, h3, h4⟩ := closeProducers_frame c.coordinator
  obtain ⟨g1, g2, g3, g4⟩ := closeConsumers_frame (closeProducers c.coordinator)
  have hc : c.socket.connected = true := h
  have hrem := NewResponse_RemoveResponseById (closeConsumers (closeProducers c.coordinator))
    commandClose ""
  have hid : ((closeConsumers (closeProducers c.coordinator)).NewResponse commandClose
      "").2.correlationid = c.coordinator.counter + 1 := by
    simp [Coordinator.NewResponse, g1, h1]
  rw [g1, h1] at hrem
  simp only [Client.Close, socket.isOpen, closeHartBeat_socket, closeHartBeat_coordinator, hc,
    if_true, hid, hrem, socket.writeAndFlush, socket.shutdown]
  refine ⟨?_, by decide, ?_⟩
  · simp [writeUShort, writeProtocolHeader, writeInt, writeShort, int16,
      uShortEncodeResponseCode, commandClose, version1, responseCodeOk]
    rfl
  · simp only [g3, h3]
    exact lookup_removeKey _ _

theorem Close_frame_witness :
    freshClient.Close.1.socket.written = freshClient.socket.written ++
      [bigEndian 4 10 ++ bigEndian 2 (uShortEncodeResponseCode commandClose) ++
        bigEndian 2 1 ++ bigEndian 4 (freshClient.coordinator.counter + 1 : Nat) ++
        bigEndian 2 responseCodeOk] ∧
    uShortEncodeResponseCode commandClose = 32790 ∧
    freshClient.Close.1.coordinator.responses.lookup (freshClient.coordinator.counter + 1) = none :=
  Close_frame freshClient (by decide)

/-! ## DeclareStream with an empty name -/

/-- C5. `DeclareStream` with the empty stream name returns an error and the client
it was given, untouched: no correlation id is allocated, no slot is registered and
nothing is written to the socket. -/
theorem DeclareStream_empty_name (c : Client) (options : Option StreamOptions)
    (range1 range2 : GoMap → GoMap) (reply : Reply) :
    c.DeclareStream "" options range1 range2 reply =
      (c, some "stream name can't be empty") := by
  simp [Client.DeclareStream]

/-! ## authenticate -/

theorem foldl_selectMechanism (ms : List String) (acc : String) :
    ms.foldl (fun saslMechanism m => if m == "PLAIN" then "PLAIN" else saslMechanism) acc =
      if "PLAIN" ∈ ms then "PLAIN" else acc := by
  induction ms generalizing acc with
  | nil => simp
  | cons m ms ih =>
    simp only [List.foldl_cons, ih, List.mem_cons]
    by_cases h : m = "PLAIN"
    · simp [h]
    · have h2 : ¬ ("PLAIN" = m) := fun h3 => h h3.symm
      simp [h, h2]

theorem selectMechanism_eq (ms : List String) :
    selectMechanism ms = if "PLAIN" ∈ ms then "PLAIN" else "" :=
  foldl_selectMechanism ms ""

/-- What `getSaslMechanisms` does on a connected client. -/
theorem getSaslMechanisms_of_open (c : Client) (data : List String)
    (h : c.socket.isOpen = true) :
    c.getSaslMechanisms data =
      ({ c with
          socket := { c.socket with written := c.socket.written ++
            [saslHandshakeFrame (c.coordinator.counter + 1)] },
          coordinator := { c.coordinator with
            counter := c.coordinator.counter + 1,
            responses := removeKey (c.coordinator.counter + 1) c.coordinator.responses } },
        .ok data) := by
  have hc : c.socket.connected = true := h
  have hrem := NewResponse_RemoveResponseById c.coordinator commandSaslHandshake ""
  have hid : (c.coordinator.NewResponse commandSaslHandshake "").2.correlationid =
      c.coordinator.counter + 1 := rfl
  simp only [Client.getSaslMechanisms, hid, hrem, socket.writeAndFlush, hc, if_true]
  simp [saslHandshakeFrame, writeProtocolHeader, writeInt, writeShort]

theorem sendSaslAuthenticate_written (c : Client) (saslMechanism : String)
    (challengeResponse : Buffer) (reply : Reply) (tuneData : Buffer)
    (h : c.socket.isOpen = true) :
    ∃ rest,
      (c.sendSaslAuthenticate saslMechanism challengeResponse reply tuneData).1.socket.written =
        c.socket.written ++
          [saslAuthenticateFrame (c.coordinator.counter + 1) saslMechanism challengeResponse]
          ++ rest := by
  have hc : c.socket.connected = true := h
  have hframe : writeInt (writeString (writeProtocolHeader []
        (2 + 2 + 4 + 2 + len saslMechanism + 4 + challengeResponse.length)
        commandSaslAuthenticate (some ((c.coordinator.counter + 1 : Nat) : Int))) saslMechanism)
      challengeResponse.length ++ challengeResponse =
      saslAuthenticateFrame (c.coordinator.counter + 1) saslMechanism challengeResponse := by
    simp [saslAuthenticateFrame, writeProtocolHeader, writeInt, writeShort, writeString]
  unfold Client.sendSaslAuthenticate
  simp only [Client.handleWrite, socket.writeAndFlush, hc, if_true, Coordinator.NewResponse,
    Coordinator.NewResponseWitName, hframe]
  cases reply with
  | timeout => exact ⟨[], by simp⟩
  | code k =>
    by_cases hk : k = responseCodeOk
    · simp only [hk, if_true]
      split
      · exact ⟨[], by simp⟩
      · exact ⟨[tuneData], by simp⟩
    · simp only [hk, if_false]
      exact ⟨[], by simp⟩

/-- C2, as stated, fails: with the mechanisms ["EXTERNAL"], which do not contain
"PLAIN", and a broker that answers OK, `authenticate` returns no error and a
SaslAuthenticate frame (key 19) is on the wire. -/
theorem authenticate_without_plain :
    "PLAIN" ∉ ["EXTERNAL"] ∧
    (freshClient.authenticate "guest" "guest" ["EXTERNAL"] (.code responseCodeOk)
      sampleTune).2 = none ∧
    ∃ f ∈ (freshClient.authenticate "guest" "guest" ["EXTERNAL"] (.code responseCodeOk)
      sampleTune).1.socket.written, frameKey f = commandSaslAuthenticate := by
  decide

/-- C2 (amended). On a connected client, for every list of mechanisms the broker
returns, `authenticate` is the SaslAuthenticate exchange with the mechanism "PLAIN"
when the list contains "PLAIN" and with the empty mechanism name otherwise: it adds
no error of its own, and after the handshake frame it writes the SaslAuthenticate
frame carrying that mechanism. -/
theorem authenticate_mechanism (c : Client) (user password : String)
    (mechanisms : List String) (reply : Reply) (tuneData : Buffer)
    (hopen : c.socket.isOpen = true) :
    c.authenticate user password mechanisms reply tuneData =
      (c.getSaslMechanisms mechanisms).1.sendSaslAuthenticate
        (if "PLAIN" ∈ mechanisms then "PLAIN" else "")
        (strBytes (unicodeNull ++ user ++ unicodeNull ++ password)) reply tuneData ∧
    ∃ rest, (c.authenticate user password mechanisms reply tuneData).1.socket.written =
      c.socket.written ++
        [saslHandshakeFrame (c.coordinator.counter + 1),
          saslAuthenticateFrame (c.coordinator.counter + 2)
            (if "PLAIN" ∈ mechanisms then "PLAIN" else "")
            (strBytes (unicodeNull ++ user ++ unicodeNull ++ password))] ++ rest := by
  have hget := getSaslMechanisms_of_open c mechanisms hopen
  have hauth : c.authenticate user password mechanisms reply tuneData =
      (c.getSaslMechanisms mechanisms).1.sendSaslAuthenticate
        (if "PLAIN" ∈ mechanisms then "PLAIN" else "")
        (strBytes (unicodeNull ++ user ++ unicodeNull ++ password)) reply tuneData := by
    unfold Client.authenticate
    rw [hget]
    simp only [selectMechanism_eq]
  refine ⟨hauth, ?_⟩
  rw [hauth, hget]
  obtain ⟨rest, hrest⟩ := sendSaslAuthenticate_written
    ({ c with
          socket := { c.socket with written := c.socket.written ++
            [saslHandshakeFrame (c.coordinator.counter + 1)] },
          coordinator := { c.coordinator with
            counter := c.coordinator.counter + 1,
            responses := removeKey (c.coordinator.counter + 1) c.coordinator.responses } })
    (if "PLAIN" ∈ mechanisms then "PLAIN" else "")
    (strBytes (unicodeNull ++ user ++ unicodeNull ++ password)) reply tuneData hopen
  refine ⟨rest, ?_⟩
  rw [hrest]
  simp

theorem authenticate_mechanism_witness :
    freshClient.authenticate "guest" "guest" ["EXTERNAL"] (.code responseCodeOk) sampleTune =
      (freshClient.getSaslMechanisms ["EXTERNAL"]).1.sendSaslAuthenticate
        (if "PLAIN" ∈ ["EXTERNAL"] then "PLAIN" else "")
        (strBytes (unicodeNull ++ "guest" ++ unicodeNull ++ "guest"))
        (.code responseCodeOk) sampleTune ∧
    ∃ rest, (freshClient.authenticate "guest" "guest" ["EXTERNAL"] (.code responseCodeOk)
        sampleTune).1.socket.written =
      freshClient.socket.written ++
        [saslHandshakeFrame (freshClient.coordinator.counter + 1),
          saslAuthenticateFrame (freshClient.coordinator.counter + 2)
            (if "PLAIN" ∈ ["EXTERNAL"] then "PLAIN" else "")
            (strBytes (unicodeNull ++ "guest" ++ unicodeNull ++ "guest"))] ++ rest :=
  authenticate_mechanism freshClient "guest" "guest" ["EXTERNAL"] (.code responseCodeOk)
    sampleTune (by decide)

/-! ## The CreateStream frame -/

theorem writeString_eq (b : Buffer) (s : String) :
    writeString b s = b ++ (bigEndian 2 (len s) ++ strBytes s) := by
  simp [writeString, writeShort]

theorem writeProtocolHeader_eq (length command : Int) (id : Int) :
    writeProtocolHeader [] length command (some id) =
      bigEndian 4 length ++ (bigEndian 2 command ++ bigEndian 2 1 ++ bigEndian 4 id) := by
  simp [writeProtocolHeader, writeInt, writeShort, version1]

theorem handleWrite_socket (c : Client) (b : Buffer) (resp : Response) (reply : Reply) :
    (c.handleWrite b resp reply).1.socket = (c.socket.writeAndFlush b).1 := by
  unfold Client.handleWrite
  cases h : (c.socket.writeAndFlush b).2 with
  | some e => simp [h]
  | none =>
    cases reply with
    | timeout => simp [h]
    | code k => by_cases hk : k = responseCodeOk <;> simp [h, hk]

/-- The first loop of `DeclareStream` adds the size of every argument to the length. -/
theorem foldl_argument_length (l : List (String × String)) (n : Int) :
    l.foldl (fun (length : Int) (kv : String × String) =>
      length + 2 + len kv.1 + 2 + len kv.2) n = n + ((l.map argumentSize).sum : Nat) := by
  induction l generalizing n with
  | nil => simp
  | cons kv l ih =>
    simp only [List.foldl_cons, ih, List.map_cons, List.sum_cons, argumentSize]
    push_cast
    ring

theorem foldl_writeArguments (l : List (String × String)) (b : Buffer) :
    l.foldl (fun b kv => writeString (writeString b kv.1) kv.2) b =
      b ++ l.foldl (fun b kv => writeString (writeString b kv.1) kv.2) [] := by
  induction l generalizing b with
  | nil => simp
  | cons kv l ih =>
    simp only [List.foldl_cons]
    rw [ih, ih (writeString (writeString [] kv.1) kv.2)]
    simp [writeString_eq]

/-- The second loop of `DeclareStream` writes as many bytes as the arguments take. -/
theorem length_foldl_writeArguments (l : List (String × String)) :
    (l.foldl (fun b kv => writeString (writeString b kv.1) kv.2) []).length =
      (l.map argumentSize).sum := by
  induction l with
  | nil => simp
  | cons kv l ih =>
    simp only [List.foldl_cons]
    rw [foldl_writeArguments, List.length_append, ih]
    simp [writeString_eq, length_bigEndian, argumentSize, len]
    ring

/-- A frame whose first four bytes encode the length of everything after them. -/
theorem frame_size (L : Nat) (body : Buffer) (hlt : L < 2 ^ 32) (hbody : body.length = L) :
    frameSize (bigEndian 4 L ++ body) = (frameBody (bigEndian 4 L ++ body)).length := by
  have h4 : (bigEndian 4 (L : Int)).length = 4 := length_bigEndian 4 L
  unfold frameSize frameBody
  rw [List.take_left' h4, List.drop_left' h4, hbody]
  exact readUInt_bigEndian_of_lt 4 L (by norm_num; omega)

/-- C8. For every non-empty stream name and every options value (`none` is nil) for
which `buildParameters` succeeds, on a connected client and for every order in which
the two loops visit the argument map, `DeclareStream` writes one frame whose size
field equals the number of bytes after it, which is
2 + 2 + 4 + (2 + len name) + 4 + the sum of (2 + len key + 2 + len value) over the
arguments. The size is taken below 2 ^ 32, the range of the field. -/
theorem DeclareStream_frame_size (c : Client) (streamName : String)
    (options : Option StreamOptions) (range1 range2 : GoMap → GoMap) (reply : Reply)
    (args : GoMap)
    (hname : streamName ≠ "")
    (hopen : c.socket.isOpen = true)
    (hargs : (options.getD NewStreamOptions).buildParameters = .ok args)
    (h1 : ∀ m, (range1 m).Perm m) (h2 : ∀ m, (range2 m).Perm m)
    (hsize : 2 + 2 + 4 + (2 + len streamName) + 4 + (args.map argumentSize).sum < 2 ^ 32) :
    ∃ f, (c.DeclareStream streamName options range1 range2 reply).1.socket.written =
        c.socket.written ++ [f] ∧
      frameSize f = (frameBody f).length ∧
      (frameBody f).length =
        2 + 2 + 4 + (2 + len streamName) + 4 + (args.map argumentSize).sum := by
  have hc : c.socket.connected = true := hopen
  have hs1 : ((range1 args).map argumentSize).sum = (args.map argumentSize).sum :=
    ((h1 args).map argumentSize).sum_eq
  have hs2 : ((range2 args).map argumentSize).sum = (args.map argumentSize).sum :=
    ((h2 args).map argumentSize).sum_eq
  have hn : (streamName == "") = false := by simpa using hname
  have hw : (c.DeclareStream streamName options range1 range2 reply).1.socket.written =
      c.socket.written ++
        [bigEndian 4
            ((2 + 2 + 4 + (2 + len streamName) + 4 + (args.map argumentSize).sum : Nat) : Int)
          ++ (bigEndian 2 commandCreateStream ++ bigEndian 2 1 ++
              bigEndian 4 ((c.coordinator.counter + 1 : Nat) : Int) ++
              (bigEndian 2 (len streamName) ++ strBytes streamName) ++
              bigEndian 4 args.length ++
              (range2 args).foldl (fun b kv => writeString (writeString b kv.1) kv.2) [])] := by
    cases options with
    | none =>
      simp only [Option.getD] at hargs
      simp only [Client.DeclareStream, hn, hargs, handleWrite_socket, socket.writeAndFlush, hc,
        if_true, Bool.false_eq_true, if_false, foldl_argument_length, hs1]
      rw [foldl_writeArguments]
      simp [writeProtocolHeader_eq, writeString_eq, writeInt, Coordinator.NewResponse]
      ring_nf
    | some o =>
      simp only [Option.getD] at hargs
      simp only [Client.DeclareStream, hn, hargs, handleWrite_socket, socket.writeAndFlush, hc,
        if_true, Bool.false_eq_true, if_false, foldl_argument_length, hs1]
      rw [foldl_writeArguments]
      simp [writeProtocolHeader_eq, writeString_eq, writeInt, Coordinator.NewResponse]
      ring_nf
  refine ⟨_, hw, ?_⟩
  have hbody : (bigEndian 2 commandCreateStream ++ bigEndian 2 1 ++
              bigEndian 4 ((c.coordinator.counter + 1 : Nat) : Int) ++
              (bigEndian 2 (len streamName) ++ strBytes streamName) ++
              bigEndian 4 args.length ++
              (range2 args).foldl (fun b kv => writeString (writeString b kv.1) kv.2) []).length
      = 2 + 2 + 4 + (2 + len streamName) + 4 + (args.map argumentSize).sum := by
    simp only [List.length_append, length_bigEndian, length_foldl_writeArguments, hs2, len]
  have hfs := frame_size _ _ hsize hbody
  refine ⟨hfs, ?_⟩
  unfold frameBody
  rw [List.drop_left' (length_bigEndian 4 _), hbody]

theorem DeclareStream_frame_size_witness :
    ∃ f, (freshClient.DeclareStream "s" none id List.reverse
        (.code responseCodeOk)).1.socket.written = freshClient.socket.written ++ [f] ∧
      frameSize f = (frameBody f).length ∧
      (frameBody f).length =
        2 + 2 + 4 + (2 + len "s") + 4 +
          (([("queue-leader-locator", "least-leaders")] : GoMap).map argumentSize).sum :=
  DeclareStream_frame_size freshClient "s" none id List.reverse (.code responseCodeOk)
    [("queue-leader-locator", "least-leaders")] (by decide) (by decide) rfl
    (fun m => List.Perm.refl m) (fun m => List.reverse_perm m) (by decide)

/-! ## The Subscribe frame -/

theorem getNextItem_lookup {α : Type} (t : List (Nat × α)) (id : Nat)
    (h : getNextItem t = some id) : t.lookup id = none := by
  have := List.find?_some h
  simpa using this

theorem removeKey_of_lookup_none {α : Type} (id : Nat) (t : List (Nat × α))
    (h : t.lookup id = none) : removeKey id t = t := by
  induction t with
  | nil => rfl
  | cons e t ih =>
    obtain ⟨k, v⟩ := e
    by_cases hk : id = k
    · subst hk
      simp [List.lookup] at h
    · have h2 : (id == k) = false := by simpa using hk
      have h3 : (k == id) = false := by simpa using fun h4 => hk h4.symm
      simp only [List.lookup, h2] at h
      have hcons : removeKey id ((k, v) :: t) = (k, v) :: removeKey id t := by
        simp [removeKey, h3]
      rw [hcons, ih h]

theorem NewConsumer_of_free (co : Coordinator) (options : ConsumerOptions) (id : Nat)
    (h : getNextItem co.consumers = some id) :
    co.NewConsumer options =
      .ok ({ co with consumers := co.consumers ++ [(id, { ID := id, options := options })] },
        { ID := id, options := options }) := by
  simp [Coordinator.NewConsumer, h]

/-- What `QueryOffset` does to the client, whatever it returns. -/
theorem QueryOffset_state (consumer : Consumer) (c : Client) (answer : OffsetReply) :
    (consumer.QueryOffset c answer).1 =
      { c with
        socket := (c.socket.writeAndFlush (queryOffsetFrame (c.coordinator.counter + 1)
          consumer.options.ConsumerName consumer.options.streamName)).1,
        coordinator := { c.coordinator with
          counter := c.coordinator.counter + 1,
          responses := removeKey (c.coordinator.counter + 1) c.coordinator.responses } } := by
  have hrem := NewResponse_RemoveResponseById c.coordinator commandQueryOffset ""
  have hid : (c.coordinator.NewResponse commandQueryOffset "").2.correlationid =
      c.coordinator.counter + 1 := rfl
  have hframe : writeString (writeString (writeProtocolHeader []
        (2 + 2 + 4 + 2 + len consumer.options.ConsumerName + 2 + len consumer.options.streamName)
        commandQueryOffset (some ((c.coordinator.counter + 1 : Nat) : Int)))
        consumer.options.ConsumerName) consumer.options.streamName =
      queryOffsetFrame (c.coordinator.counter + 1) consumer.options.ConsumerName
        consumer.options.streamName := by
    simp [queryOffsetFrame, writeProtocolHeader, writeInt, writeShort, writeString]
  unfold Consumer.QueryOffset
  simp only [hid, hrem, hframe]
  split
  · rfl
  · split <;> rfl

theorem QueryOffset_of_open (consumer : Consumer) (c : Client) (x : Int)
    (h : c.socket.isOpen = true) :
    (consumer.QueryOffset c (.offset x)).2 = .ok x := by
  have hc : c.socket.connected = true := h
  simp [Consumer.QueryOffset, socket.writeAndFlush, hc]

theorem isOffset_of_typeOffset (T : OffsetTypes) (x : Int) :
    T.isOffset { typeOfs := T.typeOffset, offset := x } = true := by
  simp [OffsetTypes.isOffset]

/-- The size `DeclareSubscriber` computes before it looks at LastConsumed. -/
theorem subscribe_length (T : OffsetTypes) (o : OffsetSpecification) (streamName : String) :
    (if T.isOffset o || T.isTimestamp o
      then (2 : Int) + 2 + 4 + 1 + 2 + len streamName + 2 + 2 + 8
      else 2 + 2 + 4 + 1 + 2 + len streamName + 2 + 2) =
    ((15 + len streamName + (if T.isOffset o || T.isTimestamp o then 8 else 0) : Nat) : Int) := by
  split <;> (push_cast; ring)

theorem DeclareSubscriber_lastConsumed (T : OffsetTypes) (c : Client) (streamName : String)
    (options : ConsumerOptions) (reply : Reply) (id : Nat) (x : Int)
    (hopen : c.socket.isOpen = true)
    (hid : getNextItem c.coordinator.consumers = some id)
    (hlc : options.Offset.typeOfs = T.typeLastConsumed) :
    (c.DeclareSubscriber T streamName options (.offset x) reply).1.socket.written =
      c.socket.written ++
        [queryOffsetFrame (c.coordinator.counter + 1) options.ConsumerName streamName,
         subscribeFrame
           (15 + len streamName +
             (if T.isOffset options.Offset || T.isTimestamp options.Offset then 8 else 0))
           (c.coordinator.counter + 2) id streamName T.typeOffset (some x)] := by
  have hc : c.socket.connected = true := hopen
  have hnew := NewConsumer_of_free c.coordinator { options with streamName := streamName } id hid
  have hl : T.isLastConsumed options.Offset = true := by
    simp [OffsetTypes.isLastConsumed, hlc]
  have hq : ∀ (cs : Consumer) (c1 : Client), c1.socket.isOpen = true →
      cs.QueryOffset c1 (.offset x) = ((cs.QueryOffset c1 (.offset x)).1, .ok x) := by
    intro cs c1 h1
    exact Prod.ext rfl (QueryOffset_of_open cs c1 x h1)
  unfold Client.DeclareSubscriber
  simp only [hnew, hl, if_true]
  rw [hq]
  · simp only [QueryOffset_state, handleWrite_socket, isOffset_of_typeOffset, Bool.true_or,
      if_true, socket.writeAndFlush, hc, setConsumerOptions, Coordinator.NewResponse,
      subscribe_length]
    simp [subscribeFrame, writeProtocolHeader, writeInt, writeShort, writeString, writeLong,
      writeByte, version1]
    rw [show ((c.coordinator.counter : Int) + 1 + 1) = c.coordinator.counter + 2 by ring]
  · exact hopen

theorem DeclareSubscriber_plain (T : OffsetTypes) (c : Client) (streamName : String)
    (options : ConsumerOptions) (query : OffsetReply) (reply : Reply) (id : Nat)
    (hopen : c.socket.isOpen = true)
    (hid : getNextItem c.coordinator.consumers = some id)
    (hlc : T.isLastConsumed options.Offset = false) :
    (c.DeclareSubscriber T streamName options query reply).1.socket.written =
      c.socket.written ++
        [subscribeFrame
          (15 + len streamName +
             (if T.isOffset options.Offset || T.isTimestamp options.Offset then 8 else 0))
          (c.coordinator.counter + 1) id streamName options.Offset.typeOfs
          (if T.isOffset options.Offset || T.isTimestamp options.Offset
            then some options.Offset.offset else none)] := by
  have hc : c.socket.connected = true := hopen
  have hnew := NewConsumer_of_free c.coordinator { options with streamName := streamName } id hid
  unfold Client.DeclareSubscriber
  simp only [hnew, hlc, Bool.false_eq_true, if_false, handleWrite_socket,
    socket.writeAndFlush, hc, if_true, Coordinator.NewResponse, subscribe_length]
  by_cases h : (T.isOffset options.Offset || T.isTimestamp options.Offset) = true
  · simp [h, subscribeFrame, writeProtocolHeader, writeInt, writeShort, writeString, writeLong,
      writeByte, version1]
  · simp [h, subscribeFrame, writeProtocolHeader, writeInt, writeShort, writeString, writeLong,
      writeByte, version1]

theorem frameKey_queryOffsetFrame (correlationId : Nat) (consumerName streamName : String) :
    frameKey (queryOffsetFrame correlationId consumerName streamName) = commandQueryOffset := by
  unfold frameKey queryOffsetFrame
  simp only [List.append_assoc]
  rw [List.drop_left' (length_bigEndian 4 _), List.take_left' (length_bigEndian 2 _)]
  decide

theorem frameSize_subscribeFrame (size correlationId consumerID : Nat) (streamName : String)
    (typeOfs : Int) (value : Option Int) (h : size < 2 ^ 32) :
    frameSize (subscribeFrame size correlationId consumerID streamName typeOfs value) = size := by
  unfold frameSize subscribeFrame
  simp only [List.append_assoc]
  rw [List.take_left' (length_bigEndian 4 _)]
  exact readUInt_bigEndian_of_lt 4 size (by norm_num; omega)

theorem frameBody_subscribeFrame (size correlationId consumerID : Nat) (streamName : String)
    (typeOfs : Int) (value : Option Int) :
    (frameBody (subscribeFrame size correlationId consumerID streamName typeOfs value)).length =
      2 + 2 + 4 + 1 + (2 + len streamName) + 2 + (if value.isSome then 8 else 0) + 2 := by
  unfold frameBody subscribeFrame
  simp only [List.append_assoc]
  rw [List.drop_left' (length_bigEndian 4 _)]
  cases value <;> simp [length_bigEndian, len] <;> ring

theorem distinct_tags (T : OffsetTypes) (hT : T.Distinct) :
    T.typeFirst ≠ T.typeOffset ∧ T.typeLast ≠ T.typeOffset ∧ T.typeNext ≠ T.typeOffset ∧
    T.typeFirst ≠ T.typeTimestamp ∧ T.typeLast ≠ T.typeTimestamp ∧
    T.typeNext ≠ T.typeTimestamp ∧
    T.typeFirst ≠ T.typeLastConsumed ∧ T.typeLast ≠ T.typeLastConsumed ∧
    T.typeNext ≠ T.typeLastConsumed ∧ T.typeOffset ≠ T.typeLastConsumed ∧
    T.typeTimestamp ≠ T.typeLastConsumed ∧ T.typeOffset ≠ T.typeTimestamp := by
  simp only [OffsetTypes.Distinct, List.nodup_cons, List.mem_cons, List.mem_singleton,
    not_or, List.not_mem_nil, not_false_eq_true, List.nodup_nil, and_true] at hT
  tauto

/-- C6. On a connected client with a free consumer id and six distinct tags: when
the offset specification is LastConsumed and the offset query succeeds with value x,
the Subscribe frame carries the type tag of Offset (which is not the LastConsumed
tag), immediately followed by x as a big-endian int64 and then the int16 credit 10;
for First, Last and Next the tag is followed directly by the credit, with no value. -/
theorem DeclareSubscriber_offset_encoding (T : OffsetTypes) (c : Client) (streamName : String)
    (options : ConsumerOptions) (reply : Reply) (id : Nat)
    (hT : T.Distinct)
    (hopen : c.socket.isOpen = true)
    (hid : getNextItem c.coordinator.consumers = some id) :
    (options.Offset.typeOfs = T.typeLastConsumed → ∀ x : Int, ∃ size,
      (c.DeclareSubscriber T streamName options (.offset x) reply).1.socket.written =
        c.socket.written ++
          [queryOffsetFrame (c.coordinator.counter + 1) options.ConsumerName streamName,
           subscribeFrame size (c.coordinator.counter + 2) id streamName T.typeOffset
             (some x)]) ∧
    T.typeOffset ≠ T.typeLastConsumed ∧
    (options.Offset.typeOfs = T.typeFirst ∨ options.Offset.typeOfs = T.typeLast ∨
        options.Offset.typeOfs = T.typeNext →
      ∀ query : OffsetReply, ∃ size,
        (c.DeclareSubscriber T streamName options query reply).1.socket.written =
          c.socket.written ++
            [subscribeFrame size (c.coordinator.counter + 1) id streamName
              options.Offset.typeOfs none]) := by
  obtain ⟨d1, d2, d3, d4, d5, d6, d7, d8, d9, d10, d11, d12⟩ := distinct_tags T hT
  refine ⟨fun hlc x => ⟨_, DeclareSubscriber_lastConsumed T c streamName options reply id x
    hopen hid hlc⟩, d10, ?_⟩
  intro hcase query
  have hno : T.isLastConsumed options.Offset = false ∧
      (T.isOffset options.Offset || T.isTimestamp options.Offset) = false := by
    rcases hcase with h | h | h <;>
      simp [OffsetTypes.isLastConsumed, OffsetTypes.isOffset, OffsetTypes.isTimestamp, h, *]
  have := DeclareSubscriber_plain T c streamName options query reply id hopen hid hno.1
  rw [hno.2] at this
  exact ⟨_, this⟩

/-- C7. When the offset specification is LastConsumed and the offset query fails,
`DeclareSubscriber` returns that error and no consumer, the consumer table is the one
from before the call, no response slot is left behind (only the query took a
correlation id) and no Subscribe frame is written. -/
theorem DeclareSubscriber_query_failure (T : OffsetTypes) (c : Client) (streamName : String)
    (options : ConsumerOptions) (query : OffsetReply) (reply : Reply)
    (co : Coordinator) (consumer : Consumer) (err : GoError)
    (hlc : options.Offset.typeOfs = T.typeLastConsumed)
    (hnew : c.coordinator.NewConsumer { options with streamName := streamName } =
      .ok (co, consumer))
    (hfail : (consumer.QueryOffset { c with coordinator := co } query).2 = .error err) :
    (c.DeclareSubscriber T streamName options query reply).2.2 = some err ∧
    (c.DeclareSubscriber T streamName options query reply).2.1 = none ∧
    (c.DeclareSubscriber T streamName options query reply).1.coordinator.consumers =
      c.coordinator.consumers ∧
    (c.DeclareSubscriber T streamName options query reply).1.coordinator.counter =
      c.coordinator.counter + 1 ∧
    ((c.DeclareSubscriber T streamName options query reply).1.coordinator.responses).Sublist
      c.coordinator.responses ∧
    ∃ frames,
      (c.DeclareSubscriber T streamName options query reply).1.socket.written =
        c.socket.written ++ frames ∧
      ∀ f ∈ frames, frameKey f ≠ commandSubscribe := by
  have hl : T.isLastConsumed options.Offset = true := by
    simp [OffsetTypes.isLastConsumed, hlc]
  have hq : consumer.QueryOffset { c with coordinator := co } query =
      ((consumer.QueryOffset { c with coordinator := co } query).1, .error err) :=
    Prod.ext rfl hfail
  unfold Coordinator.NewConsumer at hnew
  cases hfree : getNextItem c.coordinator.consumers with
  | none => simp [hfree] at hnew
  | some id =>
    simp only [hfree, Except.ok.injEq, Prod.mk.injEq] at hnew
    obtain ⟨hco, hcs⟩ := hnew
    subst hco
    subst hcs
    have hnone := getNextItem_lookup _ _ hfree
    obtain ⟨r, hr⟩ := lookup_snoc_ne_none id
      ({ ID := id, options := { options with streamName := streamName } } : Consumer)
      c.coordinator.consumers
    have hkey := frameKey_queryOffsetFrame (c.coordinator.counter + 1) options.ConsumerName
      streamName
    unfold Client.DeclareSubscriber
    simp only [Coordinator.NewConsumer, hfree, hl, if_true]
    rw [hq]
    simp only [QueryOffset_state, Coordinator.RemoveConsumerById, hr, removeKey_snoc,
      removeKey_of_lookup_none _ _ hnone, socket.writeAndFlush, true_and]
    refine ⟨List.filter_sublist _, ?_⟩
    by_cases hc : c.socket.connected = true
    · refine ⟨[queryOffsetFrame (c.coordinator.counter + 1) options.ConsumerName streamName],
        by simp [hc], ?_⟩
      intro f hf
      simp only [List.mem_singleton] at hf
      rw [hf, hkey]
      decide
    · exact ⟨[], by simp [hc], by simp⟩

/-- For an offset specification that is not LastConsumed (First, Last, Next,
Offset, Timestamp), the size field of the Subscribe frame equals the number of bytes
after it, whatever `isOffset` and `isTimestamp` answer. -/
theorem DeclareSubscriber_size_plain (T : OffsetTypes) (c : Client) (streamName : String)
    (options : ConsumerOptions) (query : OffsetReply) (reply : Reply) (id : Nat)
    (hopen : c.socket.isOpen = true)
    (hid : getNextItem c.coordinator.consumers = some id)
    (hlc : T.isLastConsumed options.Offset = false)
    (hsize : 23 + len streamName < 2 ^ 32) :
    ∃ f, (c.DeclareSubscriber T streamName options query reply).1.socket.written =
        c.socket.written ++ [f] ∧
      frameSize f = (frameBody f).length := by
  refine ⟨_, DeclareSubscriber_plain T c streamName options query reply id hopen hid hlc, ?_⟩
  rw [frameBody_subscribeFrame, frameSize_subscribeFrame]
  · split <;> simp <;> omega
  · split <;> omega

/-- For LastConsumed, the Subscribe frame carries 23 + len name bytes after its size
field, and the size field counts the eight bytes of the value exactly when `isOffset`
already holds of the LastConsumed tag. -/
theorem DeclareSubscriber_size_lastConsumed (T : OffsetTypes) (c : Client)
    (streamName : String) (options : ConsumerOptions) (reply : Reply) (id : Nat) (x : Int)
    (hT : T.Distinct)
    (hopen : c.socket.isOpen = true)
    (hid : getNextItem c.coordinator.consumers = some id)
    (hlc : options.Offset.typeOfs = T.typeLastConsumed)
    (hsize : 23 + len streamName < 2 ^ 32) :
    ∃ q f, (c.DeclareSubscriber T streamName options (.offset x) reply).1.socket.written =
        c.socket.written ++ [q, f] ∧
      (frameBody f).length = 23 + len streamName ∧
      (frameSize f = (frameBody f).length ↔ T.offsetCoversLastConsumed = true) := by
  obtain ⟨d1, d2, d3, d4, d5, d6, d7, d8, d9, d10, d11, d12⟩ := distinct_tags T hT
  refine ⟨_, _, DeclareSubscriber_lastConsumed T c streamName options reply id x hopen hid hlc,
    ?_, ?_⟩
  · rw [frameBody_subscribeFrame]
    simp
    omega
  · have hts : T.isTimestamp options.Offset = false := by
      simp [OffsetTypes.isTimestamp, hlc, Ne.symm d11]
    have hof : T.isOffset options.Offset = T.offsetCoversLastConsumed := by
      simp [OffsetTypes.isOffset, hlc, Ne.symm d10]
    rw [frameBody_subscribeFrame, frameSize_subscribeFrame, hts, hof]
    · cases T.offsetCoversLastConsumed <;> simp <;> omega
    · split <;> omega


theorem DeclareSubscriber_offset_encoding_witness :
    (lastConsumedOptions.Offset.typeOfs = sampleTypes.typeLastConsumed → ∀ x : Int, ∃ size,
      (freshClient.DeclareSubscriber sampleTypes "s" lastConsumedOptions (.offset x)
          (.code responseCodeOk)).1.socket.written =
        freshClient.socket.written ++
          [queryOffsetFrame (freshClient.coordinator.counter + 1)
             lastConsumedOptions.ConsumerName "s",
           subscribeFrame size (freshClient.coordinator.counter + 2) 0 "s"
             sampleTypes.typeOffset (some x)]) ∧
    sampleTypes.typeOffset ≠ sampleTypes.typeLastConsumed ∧
    (lastConsumedOptions.Offset.typeOfs = sampleTypes.typeFirst ∨
        lastConsumedOptions.Offset.typeOfs = sampleTypes.typeLast ∨
        lastConsumedOptions.Offset.typeOfs = sampleTypes.typeNext →
      ∀ query : OffsetReply, ∃ size,
        (freshClient.DeclareSubscriber sampleTypes "s" lastConsumedOptions query
            (.code responseCodeOk)).1.socket.written =
          freshClient.socket.written ++
            [subscribeFrame size (freshClient.coordinator.counter + 1) 0 "s"
              lastConsumedOptions.Offset.typeOfs none]) :=
  DeclareSubscriber_offset_encoding sampleTypes freshClient "s" lastConsumedOptions
    (.code responseCodeOk) 0 (by decide) (by decide) (by decide)

theorem DeclareSubscriber_query_failure_witness :
    (freshClient.DeclareSubscriber sampleTypes "s" lastConsumedOptions
        (.failure "offset not found") (.code responseCodeOk)).2.2 = some "offset not found" ∧
    (freshClient.DeclareSubscriber sampleTypes "s" lastConsumedOptions
        (.failure "offset not found") (.code responseCodeOk)).2.1 = none ∧
    (freshClient.DeclareSubscriber sampleTypes "s" lastConsumedOptions
        (.failure "offset not found") (.code responseCodeOk)).1.coordinator.consumers =
      freshClient.coordinator.consumers ∧
    (freshClient.DeclareSubscriber sampleTypes "s" lastConsumedOptions
        (.failure "offset not found") (.code responseCodeOk)).1.coordinator.counter =
      freshClient.coordinator.counter + 1 ∧
    ((freshClient.DeclareSubscriber sampleTypes "s" lastConsumedOptions
        (.failure "offset not found") (.code responseCodeOk)).1.coordinator.responses).Sublist
      freshClient.coordinator.responses ∧
    ∃ frames,
      (freshClient.DeclareSubscriber sampleTypes "s" lastConsumedOptions
          (.failure "offset not found") (.code responseCodeOk)).1.socket.written =
        freshClient.socket.written ++ frames ∧
      ∀ f ∈ frames, frameKey f ≠ commandSubscribe :=
  DeclareSubscriber_query_failure sampleTypes freshClient "s" lastConsumedOptions
    (.failure "offset not found") (.code responseCodeOk)
    { freshClient.coordinator with consumers := [(0, sampleConsumer)] } sampleConsumer
    "offset not found" rfl rfl rfl

/-! ## buildParameters -/

theorem roundHalfEven_intCast (m : ℤ) : roundHalfEven (m : ℚ) = m := by
  simp [roundHalfEven]

theorem float64_natCast (n : ℕ) (h : n < 2 ^ 53) : float64 (n : ℚ) = n := by
  unfold float64
  by_cases h0 : (n : ℚ) = 0
  · simp [h0]
  · have hn : n ≠ 0 := by exact_mod_cast h0
    have hL : Nat.log 2 n < 53 := Nat.log_lt_of_lt_pow hn h
    simp only [h0, if_false]
    rw [abs_of_nonneg (by positivity : (0 : ℚ) ≤ n), Int.log_natCast]
    obtain ⟨j, hj⟩ : ∃ j : ℕ, Nat.log 2 n + j = 52 := ⟨52 - Nat.log 2 n, by omega⟩
    have he : ((Nat.log 2 n : ℕ) : ℤ) - 52 = -(j : ℤ) := by omega
    rw [he, zpow_neg, zpow_natCast, div_inv_eq_mul]
    have hcast : (n : ℚ) * 2 ^ j = (((n * 2 ^ j : ℕ) : ℤ) : ℚ) := by push_cast; ring
    rw [hcast, roundHalfEven_intCast]
    push_cast
    field_simp

theorem durationSeconds_whole (d : Int) (h0 : 0 < d) (hlt : d < 2 ^ 63)
    (hw : d % 1000000000 = 0) : durationSeconds d = ((d / 1000000000 : Int) : ℚ) := by
  unfold durationSeconds
  have h1 : Int.tdiv d 1000000000 = d / 1000000000 :=
    Int.tdiv_eq_ediv (le_of_lt h0) (by norm_num)
  have h2 : Int.tmod d 1000000000 = 0 := by
    rw [Int.tmod_eq_emod (le_of_lt h0) (by norm_num)]
    exact hw
  simp only [h1, h2]
  obtain ⟨k, hk⟩ : ∃ k : ℕ, d / 1000000000 = (k : ℤ) :=
    ⟨(d / 1000000000).toNat, (Int.toNat_of_nonneg (by omega)).symm⟩
  have hk53 : k < 2 ^ 53 := by
    have : (k : ℤ) < 2 ^ 53 := by rw [← hk]; omega
    exact_mod_cast this
  rw [hk]
  have hz : float64 ((0 : ℤ) : ℚ) = 0 := by simp [float64]
  simp only [Int.cast_natCast, Int.cast_zero] at hz ⊢
  have hz2 : float64 (0 : ℚ) = 0 := by simp [float64]
  rw [hz2, zero_div, hz2, add_zero, float64_natCast k hk53, float64_natCast k hk53]

theorem sprintfSeconds_whole (d : Int) (h0 : 0 < d) (hlt : d < 2 ^ 63)
    (hw : d % 1000000000 = 0) :
    sprintfSeconds (durationSeconds d) = toString (d / 1000000000) ++ "s" := by
  rw [durationSeconds_whole d h0 hlt hw, sprintfSeconds, roundHalfEven_intCast]

theorem mapSet_fresh (m : GoMap) (k v : String) (h : m.lookup k = none) :
    mapSet m k v = m ++ [(k, v)] := by
  simp [mapSet, h]

/-- C4. For options whose capacities carry no error and whose `MaxAge` is a whole
number of seconds (within the int64 range of a duration), `buildParameters` succeeds
and returns exactly the expected map: the leader locator or "least-leaders", the
cluster size when positive, each capacity when set and positive, and the age in
seconds followed by "s" when positive. -/
theorem buildParameters_ok (s : StreamOptions)
    (hlen : ∀ m, s.MaxLengthBytes = some m → m.error = none)
    (hseg : ∀ m, s.MaxSegmentSizeBytes = some m → m.error = none)
    (hlt : s.MaxAge < 2 ^ 63)
    (hwhole : s.MaxAge % 1000000000 = 0) :
    s.buildParameters = .ok (expectedParameters s) := by
  obtain ⟨age, mlen, mseg, qll, ics⟩ := s
  simp only at hlen hseg hlt hwhole
  have hage : 0 < age → sprintfSeconds (durationSeconds age) =
      toString (age / 1000000000) ++ "s" := fun h => sprintfSeconds_whole age h hlt hwhole
  have hl : ∀ m, mlen = some m → m.error = none := hlen
  have hs : ∀ m, mseg = some m → m.error = none := hseg
  unfold StreamOptions.buildParameters expectedParameters setCapacity
  rcases mlen with _ | ⟨lb, le⟩ <;> rcases mseg with _ | ⟨sb, se⟩
  all_goals
    (try (have hle := hl _ rfl; simp only at hle; subst hle))
    (try (have hse := hs _ rfl; simp only at hse; subst hse))
    by_cases hq : qll = "" <;> by_cases hi : 0 < ics <;> by_cases ha : 0 < age
    all_goals
      (try by_cases hlb : 0 < lb) <;> (try by_cases hsb : 0 < sb) <;>
        simp [*, mapSet, List.lookup, sprintfD]


theorem buildParameters_ok_witness :
    sampleOptions.buildParameters = .ok (expectedParameters sampleOptions) ∧
    expectedParameters sampleOptions =
      [("queue-leader-locator", "least-leaders"), ("initial-cluster-size", "3"),
       ("max-length-bytes", "5"), ("max-age", "3600s")] :=
  ⟨buildParameters_ok sampleOptions (by intro m h; cases h; rfl) (by intro m h; cases h)
    (by decide) (by decide), by decide⟩

/-! ## buildParameters and DeclareStream on options that carry an error -/

theorem setCapacity_error (res : GoMap) (key : String) (capacity : Option ByteCapacity)
    (err : GoError) (h : capacityError capacity = some err) :
    setCapacity res key capacity = .error err := by
  rcases capacity with _ | ⟨b, e⟩
  · simp [capacityError] at h
  · simp only [capacityError] at h
    simp [setCapacity, h]

theorem setCapacity_ok (res : GoMap) (key : String) (capacity : Option ByteCapacity)
    (h : capacityError capacity = none) :
    ∃ res2, setCapacity res key capacity = .ok res2 := by
  rcases capacity with _ | ⟨b, e⟩
  · exact ⟨res, rfl⟩
  · simp only [capacityError] at h
    subst h
    by_cases hb : b > 0
    · exact ⟨mapSet res key (sprintfD b), by simp [setCapacity, hb]⟩
    · exact ⟨res, by simp [setCapacity, hb]⟩

theorem buildParameters_error (s : StreamOptions) (err : GoError)
    (h : parametersError s = some err) : s.buildParameters = .error err := by
  unfold parametersError at h
  unfold StreamOptions.buildParameters
  cases hl : capacityError s.MaxLengthBytes with
  | some e =>
    simp only [hl, Option.some.injEq] at h
    subst h
    simp only [setCapacity_error _ _ _ _ hl]
  | none =>
    simp only [hl] at h
    obtain ⟨res2, hres⟩ := setCapacity_ok
      (if s.InitialClusterSize > 0 then
        mapSet (if (s.QueueLeaderLocator != "") = true then
            mapSet [] "queue-leader-locator" s.QueueLeaderLocator
          else mapSet [] "queue-leader-locator" "least-leaders")
          "initial-cluster-size" (sprintfD s.InitialClusterSize)
      else (if (s.QueueLeaderLocator != "") = true then
            mapSet [] "queue-leader-locator" s.QueueLeaderLocator
          else mapSet [] "queue-leader-locator" "least-leaders"))
      "max-length-bytes" s.MaxLengthBytes hl
    simp only [hres, setCapacity_error _ _ _ _ h]

theorem buildParameters_succeeds (s : StreamOptions) (h : parametersError s = none) :
    ∃ args, s.buildParameters = .ok args := by
  unfold parametersError at h
  cases hl : capacityError s.MaxLengthBytes with
  | some e => simp [hl] at h
  | none =>
    simp only [hl] at h
    unfold StreamOptions.buildParameters
    obtain ⟨res2, hres⟩ := setCapacity_ok
      (if s.InitialClusterSize > 0 then
        mapSet (if (s.QueueLeaderLocator != "") = true then
            mapSet [] "queue-leader-locator" s.QueueLeaderLocator
          else mapSet [] "queue-leader-locator" "least-leaders")
          "initial-cluster-size" (sprintfD s.InitialClusterSize)
      else (if (s.QueueLeaderLocator != "") = true then
            mapSet [] "queue-leader-locator" s.QueueLeaderLocator
          else mapSet [] "queue-leader-locator" "least-leaders"))
      "max-length-bytes" s.MaxLengthBytes hl
    obtain ⟨res3, hres3⟩ := setCapacity_ok res2 "stream-max-segment-size-bytes"
      s.MaxSegmentSizeBytes h
    simp only [hres, hres3]
    split
    · exact ⟨_, rfl⟩
    · exact ⟨_, rfl⟩

/-- C11. For every non-empty stream name and every options value:
when `MaxLengthBytes` or `MaxSegmentSizeBytes` carries an error, `buildParameters`
fails with it (with that of `MaxLengthBytes` when both carry one), and
`DeclareStream` returns that same error, leaves the socket as it was (nothing is
written) and leaves no response slot under the correlation id it allocated; when
neither carries an error, `buildParameters` succeeds. -/
theorem DeclareStream_parameters_error (c : Client) (streamName : String) (s : StreamOptions)
    (range1 range2 : GoMap → GoMap) (reply : Reply) (hname : streamName ≠ "") :
    (∀ err, parametersError s = some err →
      s.buildParameters = .error err ∧
      (c.DeclareStream streamName (some s) range1 range2 reply).2 = some err ∧
      (c.DeclareStream streamName (some s) range1 range2 reply).1.socket = c.socket ∧
      (c.DeclareStream streamName (some s) range1 range2 reply).1.coordinator.responses.lookup
        (c.coordinator.counter + 1) = none) ∧
    (parametersError s = none → ∃ args, s.buildParameters = .ok args) := by
  refine ⟨fun err herr => ?_, buildParameters_succeeds s⟩
  have hb := buildParameters_error s err herr
  have hn : (streamName == "") = false := by simpa using hname
  have hrem := NewResponse_RemoveResponseById c.coordinator commandCreateStream streamName
  have hid : (c.coordinator.NewResponse commandCreateStream streamName).2.correlationid =
      c.coordinator.counter + 1 := rfl
  refine ⟨hb, ?_⟩
  simp only [Client.DeclareStream, hn, hb, hid, hrem, Bool.false_eq_true, if_false, true_and]
  exact lookup_removeKey _ _


theorem DeclareStream_parameters_error_witness :
    parametersError failingOptions = some "invalid max length" ∧
    ((∀ err, parametersError failingOptions = some err →
      failingOptions.buildParameters = .error err ∧
      (freshClient.DeclareStream "s" (some failingOptions) id List.reverse
        (.code responseCodeOk)).2 = some err ∧
      (freshClient.DeclareStream "s" (some failingOptions) id List.reverse
        (.code responseCodeOk)).1.socket = freshClient.socket ∧
      (freshClient.DeclareStream "s" (some failingOptions) id List.reverse
        (.code responseCodeOk)).1.coordinator.responses.lookup
          (freshClient.coordinator.counter + 1) = none) ∧
    (parametersError failingOptions = none →
      ∃ args, failingOptions.buildParameters = .ok args)) :=
  ⟨by decide, DeclareStream_parameters_error freshClient "s" failingOptions id List.reverse
    (.code responseCodeOk) (by decide)⟩

/-! ## DeclarePublisher -/

theorem handleWrite_producers (c : Client) (b : Buffer) (resp : Response) (reply : Reply) :
    (c.handleWrite b resp reply).1.coordinator.producers = c.coordinator.producers := by
  have hrem : (c.coordinator.RemoveResponseById resp.correlationid).1.producers =
      c.coordinator.producers := by
    unfold Coordinator.RemoveResponseById
    split <;> rfl
  unfold Client.handleWrite
  cases h : (c.socket.writeAndFlush b).2 with
  | some e => simp [h, hrem]
  | none =>
    cases reply with
    | timeout => simp [h, hrem]
    | code k => by_cases hk : k = responseCodeOk <;> simp [h, hk, hrem]

/-- The error `handleWrite` returns: the transport error of a closed socket, a
timeout, or the name of a response code other than OK. -/
theorem handleWrite_error (c : Client) (b : Buffer) (resp : Response) (reply : Reply) :
    (c.handleWrite b resp reply).2 =
      if c.socket.isOpen then
        match reply with
        | .timeout => some "timeout"
        | .code k => if k = responseCodeOk then none else some (lookErrorCode k)
      else some "socket connection closed" := by
  unfold Client.handleWrite socket.writeAndFlush socket.isOpen
  by_cases hc : c.socket.connected = true
  · cases reply with
    | timeout => simp [hc]
    | code k => by_cases hk : k = responseCodeOk <;> simp [hc, hk]
  · simp [hc]

/-- C12, as stated, fails: on a fresh connected client whose request times out,
`DeclarePublisher` returns the timeout error together with a producer, and the
producer table, empty before the call, holds that producer after it. -/
theorem DeclarePublisher_keeps_producer :
    (freshClient.DeclarePublisher "s" .timeout).2.2 = some "timeout" ∧
    (freshClient.DeclarePublisher "s" .timeout).2.1 = some { ID := 0, streamName := "s" } ∧
    freshClient.coordinator.producers = [] ∧
    (freshClient.DeclarePublisher "s" .timeout).1.coordinator.producers =
      [(0, { ID := 0, streamName := "s" })] := by
  decide

/-- C12 (amended). `DeclarePublisher` registers the producer under the lowest free
id before it sends the request and returns that producer together with the result of
the request: a transport error on a closed socket, a timeout, or the name of a
response code other than OK come back along with the producer, which stays in the
producer table. Only when no producer id is free is no producer returned and the
client left as it was. -/
theorem DeclarePublisher_registers (c : Client) (streamName : String) (reply : Reply) :
    (∀ id, getNextItem c.coordinator.producers = some id →
      (c.DeclarePublisher streamName reply).2.1 = some { ID := id, streamName := streamName } ∧
      (c.DeclarePublisher streamName reply).1.coordinator.producers =
        c.coordinator.producers ++ [(id, { ID := id, streamName := streamName })] ∧
      (c.DeclarePublisher streamName reply).2.2 =
        (if c.socket.isOpen then
          match reply with
          | .timeout => some "timeout"
          | .code k => if k = responseCodeOk then none else some (lookErrorCode k)
        else some "socket connection closed")) ∧
    (getNextItem c.coordinator.producers = none →
      c.DeclarePublisher streamName reply = (c, none, some "too many producers")) := by
  constructor
  · intro id hid
    have hnew : c.coordinator.NewProducer streamName =
        .ok ({ c.coordinator with producers := c.coordinator.producers ++
          [(id, { ID := id, streamName := streamName })] },
          { ID := id, streamName := streamName }) := by
      simp [Coordinator.NewProducer, hid]
    unfold Client.DeclarePublisher
    simp only [hnew, handleWrite_producers, handleWrite_error, Coordinator.NewResponse,
      true_and]
  · intro hnone
    simp [Client.DeclarePublisher, Coordinator.NewProducer, hnone]


theorem DeclarePublisher_registers_witness :
    (freshClient.DeclarePublisher "s" .timeout).2.1 = some { ID := 0, streamName := "s" } ∧
    (freshClient.DeclarePublisher "s" .timeout).1.coordinator.producers =
      freshClient.coordinator.producers ++ [(0, { ID := 0, streamName := "s" })] ∧
    (freshClient.DeclarePublisher "s" .timeout).2.2 =
      (if freshClient.socket.isOpen then
        match Reply.timeout with
        | .timeout => some "timeout"
        | .code k => if k = responseCodeOk then none else some (lookErrorCode k)
      else some "socket connection closed") :=
  (DeclarePublisher_registers freshClient "s" .timeout).1 0 (by decide)

end Stream
